import Mathlib

/-!
Verification of the DogTracker backend's real-time presence and broadcast
core (src/main.py, src/mqtt_handler.py), as a shallow embedding in Lean.

Python scalar values that flow through the handlers (JSON fields, SQLite
cells) are modelled by the inductive type PyVal; Python truthiness and the
short-circuiting `or` operator are modelled explicitly, because the source
relies on them (for example `data.get('latitude') or data.get('lat')`).

The SQLite tables are modelled as lists of row structures; the queries of
main.py are translated select-by-select (joins become binds over filtered
row lists, SQL UNION becomes append followed by duplicate removal).

The WebSocket connection registry (ConnectionManager) is an association
list from principal uuid to an abstract transport handle.  Transport
failure in `send_text` is modelled by a `fails` oracle on handles: the
source wraps the send in try/except and disconnects the target on error.
Deliveries that actually reach a live transport are collected in a list of
(recipient uuid, message) pairs.
-/

namespace DogTracker

/-- Scalar value as it appears in a decoded JSON message or SQLite cell. -/
inductive PyVal where
  | none
  | num (q : ℚ)
  | str (s : String)
  | bool (b : Bool)
deriving DecidableEq, Repr

/-- Python truthiness of a scalar: None, 0, the empty string and False are
falsy; everything else is truthy. -/
def PyVal.truthy : PyVal → Bool
  | .none => false
  | .num q => q != 0
  | .str s => s != ""
  | .bool b => b

/-- Python `a or b`: yields `a` when `a` is truthy, else `b`. -/
def pyOr (a b : PyVal) : PyVal := if a.truthy then a else b

/-- A decoded JSON object holding scalar fields (the `data` payload of an
inbound message). -/
abbrev Data := List (String × PyVal)

/-- Python `d.get(k)` on a scalar dict: the stored value, or None when the
key is absent. -/
def Data.get (d : Data) (k : String) : PyVal :=
  match List.lookup k d with
  | some v => v
  | Option.none => PyVal.none

/-! ## Database rows (database_manager.py schema) -/

/-- Row of the `users` table (columns the broadcast core reads). -/
structure UserRow where
  uuid : String
  email : String
  nickname : String
  last_seen : Option Nat
deriving DecidableEq, Repr

/-- Row of the `friends` table. -/
structure FriendRow where
  user_uuid : String
  friend_uuid : String
  status : String
  created_at : Nat
deriving DecidableEq, Repr

/-- Row of the `user_locations` table (primary key: uuid). -/
structure UserLocRow where
  uuid : String
  latitude : PyVal
  longitude : PyVal
  altitude : PyVal
  speed : PyVal
  battery : PyVal
  accuracy : PyVal
  timestamp : Nat
deriving DecidableEq, Repr

/-- Row of the `devices` table (primary key: imei). -/
structure DeviceRow where
  imei : String
  owner_uuid : String
  name : String
  last_seen : Option Nat
deriving DecidableEq, Repr

/-- Row of the `device_locations` table (primary key: device_id). -/
structure DeviceLocRow where
  device_id : String
  latitude : PyVal
  longitude : PyVal
  altitude : PyVal
  speed : PyVal
  battery : PyVal
  battery_mv : PyVal
  bark : PyVal
  satellites : PyVal
  lte_signal : PyVal
  lora_rssi : PyVal
  connection_type : PyVal
  time : PyVal
  timestamp : Nat
deriving DecidableEq, Repr

/-- Row of the `device_shares` table (primary key: device_imei, shared_with_uuid). -/
structure DeviceShareRow where
  device_imei : String
  owner_uuid : String
  shared_with_uuid : String
deriving DecidableEq, Repr

/-- Row of the `groups` table (primary key: id). -/
structure GroupRow where
  id : String
  name : String
  description : PyVal
  owner_id : String
  created_at : Nat
deriving DecidableEq, Repr

/-- Row of the `group_members` table. -/
structure GroupMemberRow where
  group_id : String
  user_uuid : String
deriving DecidableEq, Repr

/-- The SQLite database state as seen by the broadcast core. -/
structure DB where
  users : List UserRow
  friends : List FriendRow
  user_locations : List UserLocRow
  devices : List DeviceRow
  device_locations : List DeviceLocRow
  device_shares : List DeviceShareRow
  groups : List GroupRow
  group_members : List GroupMemberRow
deriving DecidableEq, Repr

/-! ## ConnectionManager (main.py lines 227-295) -/

/-- active_connections: user_uuid to live transport handle. -/
abbrev Conns := List (String × Nat)

/-- ConnectionManager.connect: `self.active_connections[user_uuid] = websocket`,
unconditionally overwriting any previous mapping for that uuid. -/
def connect (conns : Conns) (user_uuid : String) (handle : Nat) : Conns :=
  (List.filter (fun p => p.1 ≠ user_uuid) conns) ++ [(user_uuid, handle)]

/-- ConnectionManager.disconnect: `if user_uuid in self.active_connections:
del self.active_connections[user_uuid]`.  The handle is not consulted. -/
def disconnect (conns : Conns) (user_uuid : String) : Conns :=
  if (List.lookup user_uuid conns).isSome then
    List.filter (fun p => p.1 ≠ user_uuid) conns
  else conns

/-- Dict built per row by get_friend_locations (main.py lines 1278-1291). -/
structure UserLocView where
  uuid : String
  email : String
  nickname : String
  latitude : PyVal
  longitude : PyVal
  altitude : PyVal
  speed : PyVal
  battery : PyVal
  accuracy : PyVal
  timestamp : Nat
deriving DecidableEq, Repr

/-- Dict built per row by get_device_locations (main.py lines 1317-1375);
the nullable columns come from a LEFT JOIN and are None when the device
has no device_locations row. -/
structure DeviceLocView where
  device_id : String
  owner_uuid : String
  owner_email : String
  owner_nickname : String
  device_name : String
  latitude : PyVal
  longitude : PyVal
  altitude : PyVal
  speed : PyVal
  battery : PyVal
  battery_mv : PyVal
  bark : PyVal
  satellites : PyVal
  lte_signal : PyVal
  lora_rssi : PyVal
  connection_type : PyVal
  time : PyVal
  timestamp : PyVal
  type : String
deriving DecidableEq, Repr

/-- Dict built per group by get_user_groups_ws (main.py lines 1404-1411). -/
structure GroupView where
  id : String
  name : String
  description : PyVal
  owner_id : String
  member_ids : List String
  created_at : Nat
deriving DecidableEq, Repr

/-- Outbound server-to-client messages pushed by the broadcast core. -/
inductive Msg where
  | userLocations (data : List UserLocView)
  | deviceLocations (data : List DeviceLocView)
  | groups (data : List GroupView)
deriving DecidableEq, Repr

/-- One successful delivery: (recipient uuid, message handed to the live
transport). -/
abbrev Delivery := String × Msg

/-- ConnectionManager.send_personal_message (main.py lines 241-247): no-op
when the uuid has no live mapping; otherwise the send is attempted and, on
transport failure (`fails` oracle on the handle), the error is logged and
the uuid is disconnected; the exception never escapes. -/
def sendPersonalMessage (fails : Nat → Bool) (conns : Conns) (message : Msg)
    (user_uuid : String) : Conns × List Delivery :=
  match List.lookup user_uuid conns with
  | some h => if fails h then (disconnect conns user_uuid, []) else (conns, [(user_uuid, message)])
  | Option.none => (conns, [])

end DogTracker

namespace DogTracker

/-! ## WebSocket handshake (main.py lines 1063-1075) -/

/-- Result of the `/ws` handshake. -/
inductive HandshakeResult where
  | closed (code : Nat) (reason : String)
  | accepted (user_uuid : String)
deriving DecidableEq, Repr

/-- websocket_endpoint handshake: `token: str = None; if not token: close
4001 "Token required"`; otherwise the token is resolved by
decode_jwt_token (modelled by the `resolve` oracle) and an unresolvable
token closes with 4001 "Invalid token".  A missing query parameter is
None and an empty `?token=` is the falsy empty string. -/
def wsHandshake (resolve : String → Option String) (token : Option String) :
    HandshakeResult :=
  match token with
  | Option.none => .closed 4001 "Token required"
  | some t =>
    if t = "" then .closed 4001 "Token required"
    else
      match resolve t with
      | Option.none => .closed 4001 "Invalid token"
      | some user_uuid => .accepted user_uuid

/-- Close code of a handshake rejection, none when the connection was
accepted. -/
def HandshakeResult.closeCode : HandshakeResult → Option Nat
  | .closed c _ => some c
  | .accepted _ => Option.none

/-! ## Friend queries (main.py lines 262-295) -/

/-- Friend view dataclass built by ConnectionManager.get_user_friends. -/
structure FriendView where
  uuid : String
  email : String
  nickname : String
  status : String
  created_at : Nat
  request_sent_by : String
deriving DecidableEq, Repr

/-- One result row of get_user_friends: the selected columns are the
joined user's identity, the edge's status and creation time, and the
edge's user_uuid as request_sent_by. -/
def mkFriendView (usr : UserRow) (f : FriendRow) : FriendView :=
  FriendView.mk usr.uuid usr.email usr.nickname f.status f.created_at f.user_uuid

/-- First select of get_user_friends: rows where f.user_uuid = u (any
status), joined to users on f.friend_uuid. -/
def friendsQ1 (db : DB) (user_uuid : String) : List FriendView :=
  (db.friends.filter (fun f => f.user_uuid = user_uuid)).flatMap
    (fun f => (db.users.filter (fun usr => usr.uuid = f.friend_uuid)).map
      (fun usr => mkFriendView usr f))

/-- Second select of get_user_friends: rows where f.friend_uuid = u and
the status is accepted or pending, joined to users on f.user_uuid. -/
def friendsQ2 (db : DB) (user_uuid : String) : List FriendView :=
  (db.friends.filter
      (fun f => f.friend_uuid = user_uuid ∧ (f.status = "accepted" ∨ f.status = "pending"))).flatMap
    (fun f => (db.users.filter (fun usr => usr.uuid = f.user_uuid)).map
      (fun usr => mkFriendView usr f))

/-- ConnectionManager.get_user_friends: the SQL UNION of the two selects;
UNION removes duplicate result rows. -/
def getUserFriends (db : DB) (user_uuid : String) : List FriendView :=
  (friendsQ1 db user_uuid ++ friendsQ2 db user_uuid).dedup

/-- One send of a broadcast loop: attempt delivery to one target,
threading the registry state and accumulating the deliveries. -/
def sendStep (fails : Nat → Bool) (message : Msg) (st : Conns × List Delivery)
    (target : String) : Conns × List Delivery :=
  let r := sendPersonalMessage fails st.1 message target
  (r.1, st.2 ++ r.2)

/-- A broadcast loop over a target list, as in broadcast_to_friends and
broadcast_to_shared_users. -/
def sendAll (fails : Nat → Bool) (conns : Conns) (message : Msg)
    (targets : List String) : Conns × List Delivery :=
  targets.foldl (sendStep fails message) (conns, [])

/-- ConnectionManager.broadcast_to_friends: send the message to every
friend view whose status is accepted, threading the registry state through
each send. -/
def broadcastToFriends (fails : Nat → Bool) (conns : Conns) (message : Msg)
    (user_uuid : String) (db : DB) : Conns × List Delivery :=
  (getUserFriends db user_uuid).foldl
    (fun st fr =>
      if fr.status = "accepted" then sendStep fails message st fr.uuid
      else st)
    (conns, [])

/-- Subquery of get_friend_locations: uuids with an accepted friend edge
with u in either direction (SQL UNION of the two directed selects). -/
def acceptedFriendIds (db : DB) (user_uuid : String) : List String :=
  (((db.friends.filter (fun f => f.user_uuid = user_uuid ∧ f.status = "accepted")).map
      (fun f => f.friend_uuid)) ++
    ((db.friends.filter (fun f => f.friend_uuid = user_uuid ∧ f.status = "accepted")).map
      (fun f => f.user_uuid))).dedup

/-- get_friend_locations (main.py lines 1252-1297): users joined to
user_locations, restricted to accepted friends of u, with the viewer's own
row additionally admitted when include_self adds `OR u.uuid = ?`. -/
def getFriendLocations (db : DB) (user_uuid : String) (include_self : Bool) :
    List UserLocView :=
  db.users.flatMap (fun usr =>
    (db.user_locations.filter (fun ul => ul.uuid = usr.uuid)).filterMap (fun ul =>
      if usr.uuid ∈ acceptedFriendIds db user_uuid ∨ (include_self ∧ usr.uuid = user_uuid) then
        some (UserLocView.mk usr.uuid usr.email usr.nickname ul.latitude ul.longitude
          ul.altitude ul.speed ul.battery ul.accuracy ul.timestamp)
      else Option.none))

/-! ## user_location handler (main.py lines 1140-1180) -/

/-- INSERT OR REPLACE keyed on uuid into user_locations. -/
def upsertUserLoc (rows : List UserLocRow) (row : UserLocRow) : List UserLocRow :=
  (rows.filter (fun r => r.uuid ≠ row.uuid)) ++ [row]

/-- The user_locations row written by handle_user_location_update. -/
def mkUserLocRow (data : Data) (user_uuid : String) (now : Nat) : UserLocRow :=
  { uuid := user_uuid
    latitude := data.get "latitude"
    longitude := data.get "longitude"
    altitude := data.get "altitude"
    speed := data.get "speed"
    battery := data.get "battery"
    accuracy := data.get "accuracy"
    timestamp := now }

/-- Database after the write phase of handle_user_location_update: the
sender's user_locations row is upserted and users.last_seen touched. -/
def userLocWriteDb (db : DB) (data : Data) (user_uuid : String) (now : Nat) : DB :=
  { db with
    user_locations := upsertUserLoc db.user_locations (mkUserLocRow data user_uuid now)
    users := db.users.map (fun usr =>
      if usr.uuid = user_uuid then { usr with last_seen := some now } else usr) }

/-- handle_user_location_update: upsert the sender's user_locations row,
touch users.last_seen, look the fresh row up through
get_friend_locations(include_self=True), and broadcast it to the sender's
accepted friends.  Returns the updated database, updated registry and the
deliveries that reached live transports. -/
def handleUserLocationUpdate (fails : Nat → Bool) (conns : Conns) (db : DB)
    (data : Data) (user_uuid : String) (now : Nat) : DB × Conns × List Delivery :=
  let db1 := userLocWriteDb db data user_uuid now
  match (getFriendLocations db1 user_uuid true).find? (fun loc => loc.uuid = user_uuid) with
  | some user_location =>
    let r := broadcastToFriends fails conns (Msg.userLocations [user_location]) user_uuid db1
    (db1, r.1, r.2)
  | Option.none => (db1, conns, [])

/-! ## Device location queries and dispatch (main.py lines 1182-1250, 1299-1381, 1419-1431) -/

/-- LEFT JOIN of one device against device_locations: one all-NULL slot
when the device has no location row, else one slot per matching row. -/
def leftJoinLocs (rows : List DeviceLocRow) (imei : String) : List (Option DeviceLocRow) :=
  match rows.filter (fun dl => dl.device_id = imei) with
  | [] => [Option.none]
  | ls => ls.map some

/-- Dict built for one (device, owner, optional location) result row of
get_device_locations, with the given visibility tag. -/
def mkDeviceLocView (d : DeviceRow) (usr : UserRow) (odl : Option DeviceLocRow)
    (tag : String) : DeviceLocView :=
  { device_id := d.imei
    owner_uuid := d.owner_uuid
    owner_email := usr.email
    owner_nickname := usr.nickname
    device_name := d.name
    latitude := match odl with | some dl => dl.latitude | Option.none => PyVal.none
    longitude := match odl with | some dl => dl.longitude | Option.none => PyVal.none
    altitude := match odl with | some dl => dl.altitude | Option.none => PyVal.none
    speed := match odl with | some dl => dl.speed | Option.none => PyVal.none
    battery := match odl with | some dl => dl.battery | Option.none => PyVal.none
    battery_mv := match odl with | some dl => dl.battery_mv | Option.none => PyVal.none
    bark := match odl with | some dl => dl.bark | Option.none => PyVal.none
    satellites := match odl with | some dl => dl.satellites | Option.none => PyVal.none
    lte_signal := match odl with | some dl => dl.lte_signal | Option.none => PyVal.none
    lora_rssi := match odl with | some dl => dl.lora_rssi | Option.none => PyVal.none
    connection_type := match odl with | some dl => dl.connection_type | Option.none => PyVal.none
    time := match odl with | some dl => dl.time | Option.none => PyVal.none
    timestamp := match odl with | some dl => PyVal.num dl.timestamp | Option.none => PyVal.none
    type := tag }

/-- get_device_locations: devices owned by u (tag own) followed by devices
shared with u (tag shared), each LEFT JOINed to device_locations and
JOINed to the owner's users row. -/
def getDeviceLocations (db : DB) (user_uuid : String) : List DeviceLocView :=
  let own := (db.devices.filter (fun d => d.owner_uuid = user_uuid)).flatMap (fun d =>
    (db.users.filter (fun usr => usr.uuid = d.owner_uuid)).flatMap (fun usr =>
      (leftJoinLocs db.device_locations d.imei).map (fun odl => mkDeviceLocView d usr odl "own")))
  let shared := (db.device_shares.filter (fun ds => ds.shared_with_uuid = user_uuid)).flatMap (fun ds =>
    (db.devices.filter (fun d => d.imei = ds.device_imei)).flatMap (fun d =>
      (db.users.filter (fun usr => usr.uuid = d.owner_uuid)).flatMap (fun usr =>
        (leftJoinLocs db.device_locations d.imei).map (fun odl => mkDeviceLocView d usr odl "shared"))))
  own ++ shared

/-- broadcast_to_shared_users: send the message to every shared_with_uuid
holding a device_shares row for this device. -/
def broadcastToSharedUsers (fails : Nat → Bool) (conns : Conns) (db : DB)
    (device_id : PyVal) (message : Msg) : Conns × List Delivery :=
  (db.device_shares.filter (fun ds => PyVal.str ds.device_imei = device_id)).foldl
    (fun st ds => sendStep fails message st ds.shared_with_uuid)
    (conns, [])

/-- Resolution of the device id in handle_device_location_update:
`data.get('device_id') or data.get('imei')` under Python truthiness. -/
def resolveDeviceId (data : Data) : PyVal :=
  pyOr (data.get "device_id") (data.get "imei")

/-- The device_locations row written by handle_device_location_update:
each coordinate falls back to its legacy alias key through Python `or`. -/
def mkDeviceLocRow (data : Data) (device_id : String) (now : Nat) : DeviceLocRow :=
  { device_id := device_id
    latitude := pyOr (data.get "latitude") (data.get "lat")
    longitude := pyOr (data.get "longitude") (data.get "lon")
    altitude := data.get "altitude"
    speed := data.get "speed"
    battery := data.get "battery"
    battery_mv := data.get "battery_mv"
    bark := data.get "bark"
    satellites := data.get "satellites"
    lte_signal := data.get "lte_signal"
    lora_rssi := data.get "lora_rssi"
    connection_type := data.get "connection_type"
    time := data.get "time"
    timestamp := now }

/-- INSERT OR REPLACE keyed on device_id into device_locations. -/
def upsertDeviceLoc (rows : List DeviceLocRow) (row : DeviceLocRow) : List DeviceLocRow :=
  (rows.filter (fun r => r.device_id ≠ row.device_id)) ++ [row]

/-- Database after the write phase of handle_device_location_update: the
device_locations row is upserted and devices.last_seen touched. -/
def deviceLocWriteDb (db : DB) (data : Data) (imei : String) (now : Nat) : DB :=
  { db with
    device_locations := upsertDeviceLoc db.device_locations (mkDeviceLocRow data imei now)
    devices := db.devices.map (fun d =>
      if d.imei = imei then { d with last_seen := some now } else d) }

/-- handle_device_location_update: resolve the device id (falsy id: warn
and drop), check ownership (unknown or foreign device: warn and drop),
upsert the device_locations row, touch devices.last_seen, re-read the
sender's device views, and dispatch the fresh view first to the sender's
accepted friends re-tagged friend, then to the device's share holders
re-tagged shared.  The sender never gets a reply or an error message.  The broadcast block
of the handler (main.py lines 1228-1245) is dispatchDeviceUpdate: look up
the fresh view among the sender's device views, send it to the sender's
accepted friends re-tagged friend, then to the device's share holders
re-tagged shared; when the view lookup fails nothing is sent. -/
def dispatchDeviceUpdate (fails : Nat → Bool) (conns : Conns) (db1 : DB)
    (user_uuid : String) (device_id : PyVal) : Conns × List Delivery :=
  match (getDeviceLocations db1 user_uuid).find?
      (fun loc => PyVal.str loc.device_id = device_id) with
  | some v =>
    let rF := broadcastToFriends fails conns
      (Msg.deviceLocations [{ v with type := "friend" }]) user_uuid db1
    let rS := broadcastToSharedUsers fails rF.1 db1 device_id
      (Msg.deviceLocations [{ v with type := "shared" }])
    (rS.1, rF.2 ++ rS.2)
  | Option.none => (conns, [])

def handleDeviceLocationUpdate (fails : Nat → Bool) (conns : Conns) (db : DB)
    (data : Data) (user_uuid : String) (now : Nat) : DB × Conns × List Delivery :=
  let device_id := resolveDeviceId data
  if ¬ device_id.truthy then (db, conns, [])
  else
    match db.devices.find? (fun d => PyVal.str d.imei = device_id ∧ d.owner_uuid = user_uuid) with
    | Option.none => (db, conns, [])
    | some dev =>
      let db1 := deviceLocWriteDb db data dev.imei now
      let r := dispatchDeviceUpdate fails conns db1 user_uuid device_id
      (db1, r.1, r.2)

/-! ## Groups query and initial snapshot (main.py lines 1094-1122, 1383-1417) -/

/-- get_user_groups_ws: groups the user owns or belongs to, each with its
member id list. -/
def getUserGroupsWs (db : DB) (user_uuid : String) : List GroupView :=
  (db.groups.filter (fun g => g.owner_id = user_uuid ∨
      db.group_members.any (fun m => m.group_id = g.id ∧ m.user_uuid = user_uuid))).map
    (fun g => GroupView.mk g.id g.name g.description g.owner_id
      ((db.group_members.filter (fun m => m.group_id = g.id)).map (fun m => m.user_uuid))
      g.created_at)

/-- send_initial_data: the ordered burst of messages handed to
send_personal_message for the fresh session; an empty category sends
nothing (Python list truthiness guards each send). -/
def initialMessages (db : DB) (user_uuid : String) : List Msg :=
  (let friend_locations := getFriendLocations db user_uuid false
   if friend_locations ≠ [] then [Msg.userLocations friend_locations] else []) ++
  (let device_locations := getDeviceLocations db user_uuid
   if device_locations ≠ [] then [Msg.deviceLocations device_locations] else []) ++
  (let groups := getUserGroupsWs db user_uuid
   if groups ≠ [] then [Msg.groups groups] else [])

/-! ## Inbound message loop (main.py lines 1077-1138) -/

/-- Top-level value of an inbound JSON message: a scalar or a nested
object (the data payload). -/
inductive TopVal where
  | scalar (v : PyVal)
  | obj (d : List (String × PyVal))
deriving DecidableEq, Repr

/-- A decoded inbound WebSocket message (the JSON object handed to
handle_websocket_message). -/
abbrev TopMsg := List (String × TopVal)

/-- handle_websocket_message: dispatch on message.get('type'); the data
payload defaults to an empty dict when absent; an unknown type is logged
and dropped; any exception inside a handler is caught and logged, so the
step is always a no-op in that case and never escapes. -/
def handleWebsocketMessage (fails : Nat → Bool) (conns : Conns) (db : DB)
    (m : TopMsg) (user_uuid : String) (now : Nat) : DB × Conns × List Delivery :=
  let message_type := match List.lookup "type" m with
    | some v => v
    | Option.none => TopVal.scalar PyVal.none
  if message_type = TopVal.scalar (PyVal.str "user_location") then
    match List.lookup "data" m with
    | some (TopVal.obj d) => handleUserLocationUpdate fails conns db d user_uuid now
    | Option.none => handleUserLocationUpdate fails conns db [] user_uuid now
    | some (TopVal.scalar _) => (db, conns, [])
  else if message_type = TopVal.scalar (PyVal.str "device_location") then
    match List.lookup "data" m with
    | some (TopVal.obj d) => handleDeviceLocationUpdate fails conns db d user_uuid now
    | Option.none => handleDeviceLocationUpdate fails conns db [] user_uuid now
    | some (TopVal.scalar _) => (db, conns, [])
  else
    (db, conns, [])

/-- One received frame of the read loop: either text that fails
json.loads, or a decoded message. -/
inductive Inbound where
  | malformed (raw : String)
  | message (m : TopMsg)

/-- One iteration of the websocket_endpoint read loop.  json.loads runs
outside the per-message try/except of handle_websocket_message, so a
malformed frame raises into the endpoint's outer except handler, which
logs, disconnects the user and leaves the loop (final Bool false).  A
decoded message is handled with per-message error isolation and the loop
continues (final Bool true). -/
def wsLoopStep (fails : Nat → Bool) (conns : Conns) (db : DB)
    (user_uuid : String) (now : Nat) (inb : Inbound) :
    DB × Conns × List Delivery × Bool :=
  match inb with
  | .malformed _ => (db, disconnect conns user_uuid, [], false)
  | .message m =>
    let r := handleWebsocketMessage fails conns db m user_uuid now
    (r.1, r.2.1, r.2.2, true)

/-! ## Telemetry assembler (mqtt_handler.py lines 20-82) -/

/-- Per-device assembly buffer created by on_message's setdefault. -/
structure DevBuf where
  device_id : String
  latitude : Option ℚ
  longitude : Option ℚ
  battery : Option ℤ
  bark : Option ℤ
  last_update : Nat
deriving DecidableEq, Repr

/-- device_buffers: device id to assembly buffer. -/
abbrev Buffers := List (String × DevBuf)

/-- Topic root the handler strips, MQTT_TOPIC_PREFIX in the source
(default value). -/
def mqttTopicRoot : String := "DogTracker/devices/"

/-- Topic decomposition of on_message: strip the root, split on "/", give
up when fewer than two segments remain, else return the device id segment
and the rejoined subtopic. -/
def parseTopic (topic : String) : Option (String × String) :=
  match (topic.drop mqttTopicRoot.length).splitOn "/" with
  | [] => Option.none
  | [_] => Option.none
  | d :: rest => some (d, String.intercalate "/" rest)

/-- Python int(payload) on a numeric payload: succeeds exactly on integer
values (a fractional payload raises and the fragment is dropped by the
handler's except clause). -/
def parseIntPy (q : ℚ) : Option ℤ :=
  if q.den = 1 then some q.num else Option.none

/-- Field merge of one fragment into a device buffer: the subtopic selects
the field; an unrecognized subtopic or a failing int() parse yields none
(the handler returns or raises before touching the field, and in either
case before updating last_update). -/
def applyField (b : DevBuf) (sub : String) (payload : ℚ) : Option DevBuf :=
  if sub = "Position/latitude" then some { b with latitude := some payload }
  else if sub = "Position/longitude" then some { b with longitude := some payload }
  else if sub = "battery" then
    match parseIntPy payload with
    | some n => some { b with battery := some n }
    | Option.none => Option.none
  else if sub = "bark" then
    match parseIntPy payload with
    | some n => some { b with bark := some n }
    | Option.none => Option.none
  else Option.none

/-- Completeness check of on_message: latitude, longitude, battery and
bark all present and non-null. -/
def bufComplete (b : DevBuf) : Bool :=
  b.latitude.isSome && b.longitude.isSome && b.battery.isSome && b.bark.isSome

/-- The dispatched payload: the dog dict is a snapshot of the buffer and
the timestamp is the buffer's last_update. -/
structure Emission where
  dog : DevBuf
  timestamp : Nat
deriving DecidableEq, Repr

/-- Fresh buffer installed by setdefault for an unseen device id. -/
def newBuf (d : String) (now : Nat) : DevBuf :=
  { device_id := d, latitude := Option.none, longitude := Option.none
    battery := Option.none, bark := Option.none, last_update := now }

/-- Store the (mutated-in-place) buffer of a device back into the map. -/
def setBuf (bufs : Buffers) (d : String) (b : DevBuf) : Buffers :=
  (d, b) :: bufs.filter (fun p => p.1 ≠ d)

/-- Core of on_message after topic decomposition: setdefault the buffer,
merge the field, refresh last_update on success, and emit one assembled
update exactly when the merged buffer is complete.  The buffer is stored
back unreset in every case. -/
def onFragment (bufs : Buffers) (d : String) (sub : String) (payload : ℚ)
    (now : Nat) : Buffers × Option Emission :=
  let b0 := match List.lookup d bufs with
    | some b => b
    | Option.none => newBuf d now
  match applyField b0 sub payload with
  | Option.none => (setBuf bufs d b0, Option.none)
  | some b1 =>
    let b2 := { b1 with last_update := now }
    if bufComplete b2 then (setBuf bufs d b2, some ⟨b2, b2.last_update⟩)
    else (setBuf bufs d b2, Option.none)

/-- on_message for a full topic string and numeric payload. -/
def onMessage (bufs : Buffers) (topic : String) (payload : ℚ) (now : Nat) :
    Buffers × Option Emission :=
  match parseTopic topic with
  | some (d, sub) => onFragment bufs d sub payload now
  | Option.none => (bufs, Option.none)

/-- One telemetry fragment after topic decomposition: device id, subtopic,
numeric payload and arrival tick. -/
structure Frag where
  device : String
  sub : String
  payload : ℚ
  arrival : Nat
deriving DecidableEq, Repr

/-- Process a sequence of fragments, collecting every emission in order. -/
def runFragments (bufs : Buffers) (fs : List Frag) : Buffers × List Emission :=
  fs.foldl
    (fun st f =>
      let r := onFragment st.1 f.device f.sub f.payload f.arrival
      (r.1, st.2 ++ r.2.toList))
    (bufs, [])

/-! ## Registry helper lemmas -/

theorem lookup_filter_ne_key {β : Type} (l : List (String × β)) (u : String) :
    List.lookup u (l.filter (fun p => p.1 ≠ u)) = Option.none := by
  induction l with
  | nil => rfl
  | cons hd tl ih =>
    obtain ⟨k, v⟩ := hd
    rw [List.filter_cons]
    by_cases h : k = u
    · simp only [h]
      simpa using ih
    · have hbe : (u == k) = false := beq_false_of_ne (Ne.symm h)
      have hd : (decide ((k, v).1 ≠ u)) = true := by simp [h]
      rw [hd, if_pos rfl, List.lookup_cons, hbe]
      simpa using ih

theorem lookup_filter_ne_other {β : Type} (l : List (String × β)) (u v : String)
    (hvu : v ≠ u) :
    List.lookup v (l.filter (fun p => p.1 ≠ u)) = List.lookup v l := by
  induction l with
  | nil => rfl
  | cons hd tl ih =>
    obtain ⟨k, w⟩ := hd
    rw [List.filter_cons]
    by_cases h : k = u
    · have hbe : (v == k) = false := beq_false_of_ne (h ▸ hvu)
      have hdec : (decide ((k, w).1 ≠ u)) = false := by simp [h]
      rw [hdec]
      simp only [Bool.false_eq_true, if_false, List.lookup_cons, hbe]
      simpa using ih
    · have hdec : (decide ((k, w).1 ≠ u)) = true := by simp [h]
      rw [hdec, if_pos rfl, List.lookup_cons, List.lookup_cons]
      cases hvk : (v == k) with
      | true => rfl
      | false => simpa using ih

theorem lookup_disconnect_self (conns : Conns) (u : String) :
    List.lookup u (disconnect conns u) = Option.none := by
  unfold disconnect
  by_cases h : (List.lookup u conns).isSome
  · rw [if_pos h]
    exact lookup_filter_ne_key conns u
  · rw [if_neg h]
    exact Option.not_isSome_iff_eq_none.mp h

theorem lookup_disconnect_other (conns : Conns) (u v : String) (hvu : v ≠ u) :
    List.lookup v (disconnect conns u) = List.lookup v conns := by
  unfold disconnect
  by_cases h : (List.lookup u conns).isSome
  · rw [if_pos h]
    exact lookup_filter_ne_other conns u v hvu
  · rw [if_neg h]

theorem lookup_connect_self (conns : Conns) (u : String) (h : Nat) :
    List.lookup u (connect conns u h) = some h := by
  unfold connect
  induction conns with
  | nil => simp [List.lookup_cons]
  | cons hd tl ih =>
    obtain ⟨k, v⟩ := hd
    rw [List.filter_cons]
    by_cases hh : k = u
    · have hdec : (decide ((k, v).1 ≠ u)) = false := by simp [hh]
      rw [hdec]
      simpa using ih
    · have hbe : (u == k) = false := beq_false_of_ne (Ne.symm hh)
      have hdec : (decide ((k, v).1 ≠ u)) = true := by simp [hh]
      rw [hdec, if_pos rfl, List.cons_append, List.lookup_cons, hbe]
      exact ih

theorem filter_key_connect (conns : Conns) (u : String) (h : Nat) :
    ((connect conns u h).filter (fun p => p.1 = u)).length = 1 := by
  unfold connect
  rw [List.filter_append, List.filter_filter]
  have hleft : conns.filter (fun p => decide (p.1 = u) && decide (p.1 ≠ u)) = [] := by
    apply List.filter_eq_nil_iff.mpr
    intro p _
    by_cases hp : p.1 = u <;> simp [hp]
  rw [hleft]
  simp

/-! ## Broadcast fold lemmas -/

theorem sendStep_cases (fails : Nat → Bool) (message : Msg)
    (st : Conns × List Delivery) (t : String) :
    (List.lookup t st.1 = Option.none ∧ sendStep fails message st t = (st.1, st.2)) ∨
    (∃ h2, List.lookup t st.1 = some h2 ∧ fails h2 = true ∧
      sendStep fails message st t = (disconnect st.1 t, st.2)) ∨
    (∃ h2, List.lookup t st.1 = some h2 ∧ fails h2 = false ∧
      sendStep fails message st t = (st.1, st.2 ++ [(t, message)])) := by
  unfold sendStep sendPersonalMessage
  cases hl : List.lookup t st.1 with
  | none =>
    left
    refine ⟨rfl, ?_⟩
    simp
  | some h2 =>
    by_cases hf : fails h2 = true
    · right; left
      refine ⟨h2, rfl, hf, ?_⟩
      simp [hf]
    · right; right
      have hf' : fails h2 = false := by simpa using hf
      refine ⟨h2, rfl, hf', ?_⟩
      simp [hf']

theorem foldl_sendStep_connected (fails : Nat → Bool) (message : Msg)
    (t : String) (h : Nat) (hfl : fails h = false) :
    ∀ (targets : List String) (conns : Conns) (dels0 : List Delivery),
      List.lookup t conns = some h →
      List.lookup t (targets.foldl (sendStep fails message) (conns, dels0)).1 = some h ∧
      ((targets.foldl (sendStep fails message) (conns, dels0)).2.filter
          (fun p => p.1 = t)).length =
        (dels0.filter (fun p => p.1 = t)).length + targets.count t := by
  intro targets
  induction targets with
  | nil =>
    intro conns dels0 hc
    exact ⟨hc, by simp⟩
  | cons t' ts ih =>
    intro conns dels0 hc
    rw [List.foldl_cons]
    by_cases ht' : t' = t
    · subst ht'
      have hstep : sendStep fails message (conns, dels0) t' =
          (conns, dels0 ++ [(t', message)]) := by
        rcases sendStep_cases fails message (conns, dels0) t' with
          ⟨hn, _⟩ | ⟨h2, hl, _, _⟩ | ⟨h2, hl, _, he⟩
        · rw [hc] at hn
          exact absurd hn (by simp)
        · rw [hc] at hl
          injection hl with hh
          subst hh
          rw [hfl] at *
          simp_all
        · exact he
      rw [hstep]
      obtain ⟨ih1, ih2⟩ := ih conns (dels0 ++ [(t', message)]) hc
      refine ⟨ih1, ?_⟩
      rw [ih2]
      simp [List.count_cons]
      omega
    · rcases sendStep_cases fails message (conns, dels0) t' with
        ⟨hn, he⟩ | ⟨h2, hl, hf, he⟩ | ⟨h2, hl, hf, he⟩
      · rw [he]
        obtain ⟨ih1, ih2⟩ := ih conns dels0 hc
        refine ⟨ih1, ?_⟩
        rw [ih2, List.count_cons]
        simp [ht']
      · rw [he]
        have hc2 : List.lookup t (disconnect conns t') = some h := by
          rw [lookup_disconnect_other conns t' t (fun hh => ht' hh.symm)]
          exact hc
        obtain ⟨ih1, ih2⟩ := ih (disconnect conns t') dels0 hc2
        refine ⟨ih1, ?_⟩
        rw [ih2, List.count_cons]
        simp [ht']
      · rw [he]
        obtain ⟨ih1, ih2⟩ := ih conns (dels0 ++ [(t', message)]) hc
        refine ⟨ih1, ?_⟩
        rw [ih2, List.count_cons]
        have hkeep : ((dels0 ++ [(t', message)]).filter (fun p => p.1 = t)).length =
            (dels0.filter (fun p => p.1 = t)).length := by
          simp [List.filter_append, ht']
        rw [hkeep]
        simp [ht']

theorem foldl_sendStep_not_target (fails : Nat → Bool) (message : Msg) (t : String) :
    ∀ (targets : List String) (conns : Conns) (dels0 : List Delivery),
      t ∉ targets →
      ((targets.foldl (sendStep fails message) (conns, dels0)).2.filter
          (fun p => p.1 = t)).length =
        (dels0.filter (fun p => p.1 = t)).length := by
  intro targets
  induction targets with
  | nil =>
    intro conns dels0 _
    simp
  | cons t' ts ih =>
    intro conns dels0 hnot
    have ht' : t' ≠ t := by
      intro hh
      exact hnot (hh ▸ List.mem_cons_self t' ts)
    have hts : t ∉ ts := fun hm => hnot (List.mem_cons_of_mem t' hm)
    rw [List.foldl_cons]
    rcases sendStep_cases fails message (conns, dels0) t' with
      ⟨hn, he⟩ | ⟨h2, hl, hf, he⟩ | ⟨h2, hl, hf, he⟩
    · rw [he]
      exact ih conns dels0 hts
    · rw [he]
      exact ih (disconnect conns t') dels0 hts
    · rw [he]
      rw [ih conns (dels0 ++ [(t', message)]) hts]
      simp [List.filter_append, ht']

theorem foldl_sendStep_messages (fails : Nat → Bool) (message : Msg) :
    ∀ (targets : List String) (conns : Conns) (dels0 : List Delivery),
      ∀ p ∈ (targets.foldl (sendStep fails message) (conns, dels0)).2,
        p ∈ dels0 ∨ p.2 = message := by
  intro targets
  induction targets with
  | nil =>
    intro conns dels0 p hp
    exact Or.inl hp
  | cons t' ts ih =>
    intro conns dels0 p hp
    rw [List.foldl_cons] at hp
    rcases sendStep_cases fails message (conns, dels0) t' with
      ⟨hn, he⟩ | ⟨h2, hl, hf, he⟩ | ⟨h2, hl, hf, he⟩
    · rw [he] at hp
      exact ih conns dels0 p hp
    · rw [he] at hp
      exact ih (disconnect conns t') dels0 p hp
    · rw [he] at hp
      rcases ih conns (dels0 ++ [(t', message)]) p hp with hin | hm
      · rcases List.mem_append.mp hin with hin0 | hin1
        · exact Or.inl hin0
        · right
          have : p = (t', message) := by simpa using hin1
          rw [this]
      · exact Or.inr hm

theorem broadcastToFriends_eq_sendAll (fails : Nat → Bool) (conns : Conns)
    (message : Msg) (user_uuid : String) (db : DB) :
    broadcastToFriends fails conns message user_uuid db =
      sendAll fails conns message
        (((getUserFriends db user_uuid).filter
            (fun fr => fr.status = "accepted")).map (fun fr => fr.uuid)) := by
  unfold broadcastToFriends sendAll
  suffices hgen : ∀ (L : List FriendView) (st : Conns × List Delivery),
      L.foldl
        (fun st fr => if fr.status = "accepted" then sendStep fails message st fr.uuid else st)
        st =
      ((L.filter (fun fr => fr.status = "accepted")).map (fun fr => fr.uuid)).foldl
        (sendStep fails message) st by
    exact hgen _ _
  intro L
  induction L with
  | nil =>
    intro st
    rfl
  | cons fr tl ih =>
    intro st
    rw [List.foldl_cons, List.filter_cons]
    by_cases hs : fr.status = "accepted"
    · have hdec : (decide (fr.status = "accepted")) = true := by simp [hs]
      rw [if_pos hs, hdec, if_pos rfl, List.map_cons, List.foldl_cons]
      exact ih _
    · have hdec : (decide (fr.status = "accepted")) = false := by simp [hs]
      rw [if_neg hs, hdec]
      simp only [Bool.false_eq_true, if_false]
      exact ih st

theorem broadcastToSharedUsers_eq_sendAll (fails : Nat → Bool) (conns : Conns)
    (db : DB) (device_id : PyVal) (message : Msg) :
    broadcastToSharedUsers fails conns db device_id message =
      sendAll fails conns message
        ((db.device_shares.filter (fun ds => PyVal.str ds.device_imei = device_id)).map
          (fun ds => ds.shared_with_uuid)) := by
  unfold broadcastToSharedUsers sendAll
  suffices hgen : ∀ (L : List DeviceShareRow) (st : Conns × List Delivery),
      L.foldl (fun st ds => sendStep fails message st ds.shared_with_uuid) st =
      (L.map (fun ds => ds.shared_with_uuid)).foldl (sendStep fails message) st by
    exact hgen _ _
  intro L
  induction L with
  | nil =>
    intro st
    rfl
  | cons ds tl ih =>
    intro st
    rw [List.foldl_cons, List.map_cons, List.foldl_cons]
    exact ih _

/-! ## Audience characterization lemmas -/

theorem count_map_key {α : Type} (f : α → String) :
    ∀ (L : List α) (t : String),
      ((L.map f).count t) = (L.filter (fun x => f x = t)).length := by
  intro L
  induction L with
  | nil => intro t; rfl
  | cons x xs ih =>
    intro t
    rw [List.map_cons, List.count_cons, List.filter_cons, ih]
    by_cases hx : f x = t
    · have hb : (t == f x) = true := by simp [hx]
      simp [hx, hb]
    · have hb : (t == f x) = false := beq_false_of_ne (fun hh => hx hh.symm)
      simp [hx, hb]

theorem length_filter_dedup_unique {α : Type} [DecidableEq α] (l : List α)
    (p : α → Bool) (v : α) (hv : v ∈ l) (hpv : p v = true)
    (huniq : ∀ x ∈ l, p x = true → x = v) :
    ((l.dedup).filter p).length = 1 := by
  have h1 : (l.dedup).filter p = (l.dedup).filter (fun x => x == v) := by
    apply List.filter_congr
    intro x hx
    have hxl : x ∈ l := List.mem_dedup.mp hx
    by_cases hx2 : p x = true
    · rw [hx2]
      have hxv := huniq x hxl hx2
      simp [hxv]
    · have hb : p x = false := by simpa using hx2
      rw [hb]
      have hne : (x == v) = false := by
        apply beq_false_of_ne
        intro he
        exact hx2 (he ▸ hpv)
      rw [hne]
  rw [h1, ← List.countP_eq_length_filter]
  have h2 : l.dedup.countP (fun x => x == v) = l.dedup.count v := rfl
  rw [h2, List.count_dedup]
  simp [hv]

theorem length_filter_dedup_empty {α : Type} [DecidableEq α] (l : List α)
    (p : α → Bool) (hnone : ∀ x ∈ l, p x = false) :
    ((l.dedup).filter p).length = 0 := by
  have : (l.dedup).filter p = [] := by
    apply List.filter_eq_nil_iff.mpr
    intro x hx
    have := hnone x (List.mem_dedup.mp hx)
    simp [this]
  rw [this]
  rfl

theorem mem_friendsQ1 (db : DB) (u : String) (v : FriendView) :
    v ∈ friendsQ1 db u ↔
      ∃ f ∈ db.friends, f.user_uuid = u ∧
        ∃ usr ∈ db.users, usr.uuid = f.friend_uuid ∧ v = mkFriendView usr f := by
  unfold friendsQ1
  simp only [List.mem_flatMap, List.mem_filter, List.mem_map, decide_eq_true_eq]
  constructor
  · rintro ⟨f, ⟨hf, hfu⟩, usr, ⟨husr, huu⟩, hv⟩
    exact ⟨f, hf, hfu, usr, husr, huu, hv.symm⟩
  · rintro ⟨f, hf, hfu, usr, husr, huu, hv⟩
    exact ⟨f, ⟨hf, hfu⟩, usr, ⟨husr, huu⟩, hv.symm⟩

theorem mem_friendsQ2 (db : DB) (u : String) (v : FriendView) :
    v ∈ friendsQ2 db u ↔
      ∃ f ∈ db.friends, f.friend_uuid = u ∧ (f.status = "accepted" ∨ f.status = "pending") ∧
        ∃ usr ∈ db.users, usr.uuid = f.user_uuid ∧ v = mkFriendView usr f := by
  unfold friendsQ2
  simp only [List.mem_flatMap, List.mem_filter, List.mem_map, decide_eq_true_eq]
  constructor
  · rintro ⟨f, ⟨hf, hfu, hst⟩, usr, ⟨husr, huu⟩, hv⟩
    exact ⟨f, hf, hfu, hst, usr, husr, huu, hv.symm⟩
  · rintro ⟨f, hf, hfu, hst, usr, husr, huu, hv⟩
    exact ⟨f, ⟨hf, hfu, hst⟩, usr, ⟨husr, huu⟩, hv.symm⟩

/-- Under the stored-pair invariants maintained by the HTTP friends API
(at most one friends row per unordered pair), the accepted-audience target
list of a broadcast from A contains an accepted friend B exactly once. -/
theorem friends_audience_count_one (db : DB) (A B : String)
    (husers : (db.users.map (fun usr => usr.uuid)).Nodup)
    (hBu : ∃ ub ∈ db.users, ub.uuid = B)
    (hedge : ∃ f ∈ db.friends, f.status = "accepted" ∧
      ((f.user_uuid = A ∧ f.friend_uuid = B) ∨ (f.user_uuid = B ∧ f.friend_uuid = A)))
    (hpair : ∀ f ∈ db.friends, ∀ g ∈ db.friends,
      ((f.user_uuid = A ∧ f.friend_uuid = B) ∨ (f.user_uuid = B ∧ f.friend_uuid = A)) →
      ((g.user_uuid = A ∧ g.friend_uuid = B) ∨ (g.user_uuid = B ∧ g.friend_uuid = A)) →
      f = g) :
    (((getUserFriends db A).filter (fun fr => fr.status = "accepted")).map
      (fun fr => fr.uuid)).count B = 1 := by
  obtain ⟨ub, hub, hubB⟩ := hBu
  obtain ⟨fAB, hfAB, hst, hdir⟩ := hedge
  rw [count_map_key]
  rw [List.filter_filter]
  unfold getUserFriends
  apply length_filter_dedup_unique _ _ (mkFriendView ub fAB)
  · rcases hdir with ⟨hu, hv⟩ | ⟨hu, hv⟩
    · exact List.mem_append_left _
        ((mem_friendsQ1 db A _).mpr ⟨fAB, hfAB, hu, ub, hub, by rw [hubB, hv], rfl⟩)
    · exact List.mem_append_right _
        ((mem_friendsQ2 db A _).mpr ⟨fAB, hfAB, hv, Or.inl hst, ub, hub, by rw [hubB, hu], rfl⟩)
  · simp [mkFriendView, hst, hubB]
  · intro x hx hpx
    have hxB : x.uuid = B ∧ x.status = "accepted" := by
      constructor
      · exact of_decide_eq_true (Bool.and_elim_left hpx)
      · exact of_decide_eq_true (Bool.and_elim_right hpx)
    rcases List.mem_append.mp hx with hx1 | hx2
    · obtain ⟨f, hf, hfu, usr, husr, huu, hxmk⟩ := (mem_friendsQ1 db A x).mp hx1
      have husrB : usr.uuid = B := by
        have hxu := hxB.1
        rw [hxmk] at hxu
        simpa [mkFriendView] using hxu
      have hfB : f.friend_uuid = B := by
        rw [← huu]
        exact husrB
      have hfeq : f = fAB :=
        hpair f hf fAB hfAB (Or.inl ⟨hfu, hfB⟩) hdir
      have husreq : usr = ub :=
        List.inj_on_of_nodup_map husers husr hub (by rw [husrB, hubB])
      rw [hxmk, hfeq, husreq]
    · obtain ⟨f, hf, hfu, _, usr, husr, huu, hxmk⟩ := (mem_friendsQ2 db A x).mp hx2
      have husrB : usr.uuid = B := by
        have hxu := hxB.1
        rw [hxmk] at hxu
        simpa [mkFriendView] using hxu
      have hfB : f.user_uuid = B := by
        rw [← huu]
        exact husrB
      have hfeq : f = fAB :=
        hpair f hf fAB hfAB (Or.inr ⟨hfB, hfu⟩) hdir
      have husreq : usr = ub :=
        List.inj_on_of_nodup_map husers husr hub (by rw [husrB, hubB])
      rw [hxmk, hfeq, husreq]

/-- A principal with no accepted friends row to A in either direction is
not a target of the accepted-audience broadcast from A. -/
theorem friends_audience_not_mem (db : DB) (A t : String)
    (hnone : ∀ f ∈ db.friends, f.status = "accepted" →
      ¬ ((f.user_uuid = A ∧ f.friend_uuid = t) ∨ (f.user_uuid = t ∧ f.friend_uuid = A))) :
    t ∉ (((getUserFriends db A).filter (fun fr => fr.status = "accepted")).map
      (fun fr => fr.uuid)) := by
  intro hmem
  obtain ⟨fr, hfr, hfru⟩ := List.mem_map.mp hmem
  obtain ⟨hfr2, hacc⟩ := List.mem_filter.mp hfr
  have haccP : fr.status = "accepted" := of_decide_eq_true hacc
  have hfr3 := List.mem_dedup.mp hfr2
  rcases List.mem_append.mp hfr3 with hx1 | hx2
  · obtain ⟨f, hf, hfu, usr, husr, huu, hxmk⟩ := (mem_friendsQ1 db A fr).mp hx1
    have hstf : f.status = "accepted" := by
      rw [hxmk] at haccP
      exact haccP
    have hft : f.friend_uuid = t := by
      rw [← huu]
      rw [hxmk] at hfru
      exact hfru
    exact hnone f hf hstf (Or.inl ⟨hfu, hft⟩)
  · obtain ⟨f, hf, hfu, _, usr, husr, huu, hxmk⟩ := (mem_friendsQ2 db A fr).mp hx2
    have hstf : f.status = "accepted" := by
      rw [hxmk] at haccP
      exact haccP
    have hft : f.user_uuid = t := by
      rw [← huu]
      rw [hxmk] at hfru
      exact hfru
    exact hnone f hf hstf (Or.inr ⟨hft, hfu⟩)

/-! ## Friend-location snapshot lemmas -/

theorem mem_getFriendLocations (db : DB) (u : String) (include_self : Bool)
    (v : UserLocView) :
    v ∈ getFriendLocations db u include_self ↔
      ∃ usr ∈ db.users, ∃ ul ∈ db.user_locations, ul.uuid = usr.uuid ∧
        (usr.uuid ∈ acceptedFriendIds db u ∨ (include_self ∧ usr.uuid = u)) ∧
        v = UserLocView.mk usr.uuid usr.email usr.nickname ul.latitude ul.longitude
          ul.altitude ul.speed ul.battery ul.accuracy ul.timestamp := by
  unfold getFriendLocations
  simp only [List.mem_flatMap, List.mem_filterMap, List.mem_filter, decide_eq_true_eq]
  constructor
  · rintro ⟨usr, husr, ul, ⟨hul, hulu⟩, hif⟩
    by_cases hc : usr.uuid ∈ acceptedFriendIds db u ∨ (include_self ∧ usr.uuid = u)
    · rw [if_pos hc] at hif
      exact ⟨usr, husr, ul, hul, hulu, hc, (Option.some.inj hif).symm⟩
    · rw [if_neg hc] at hif
      exact absurd hif (by simp)
  · rintro ⟨usr, husr, ul, hul, hulu, hc, hveq⟩
    exact ⟨usr, husr, ul, ⟨hul, hulu⟩, by rw [if_pos hc, hveq]⟩

theorem userLocWriteDb_users_map_uuid (db : DB) (data : Data) (u : String) (now : Nat) :
    ((userLocWriteDb db data u now).users.map (fun usr => usr.uuid)) =
      db.users.map (fun usr => usr.uuid) := by
  show ((db.users.map _).map _) = _
  rw [List.map_map]
  apply List.map_congr_left
  intro usr _
  by_cases hc : usr.uuid = u <;> simp [hc]

/-- Any view of the sender in the post-write friend-locations query carries
exactly the freshly written coordinates and timestamp. -/
theorem self_view_content (db : DB) (data : Data) (u : String) (now : Nat)
    (v : UserLocView)
    (hv : v ∈ getFriendLocations (userLocWriteDb db data u now) u true)
    (hvu : v.uuid = u) :
    v.latitude = data.get "latitude" ∧ v.longitude = data.get "longitude" ∧
    v.timestamp = now := by
  obtain ⟨usr, husr, ul, hul, hulu, _, hveq⟩ :=
    (mem_getFriendLocations _ u true v).mp hv
  have husru : usr.uuid = u := by
    rw [hveq] at hvu
    simpa using hvu
  have hulm : ul ∈ upsertUserLoc db.user_locations (mkUserLocRow data u now) := hul
  unfold upsertUserLoc at hulm
  rcases List.mem_append.mp hulm with hleft | hright
  · exfalso
    have hne := List.mem_filter.mp hleft
    have : ul.uuid ≠ (mkUserLocRow data u now).uuid := by simpa using hne.2
    apply this
    rw [hulu, husru]
    simp [mkUserLocRow]
  · have hulrow : ul = mkUserLocRow data u now := by simpa using hright
    rw [hveq, hulrow]
    simp [mkUserLocRow]

/-- After the write phase, the sender appears in the include-self
friend-locations query whenever the sender has a users row. -/
theorem self_view_exists (db : DB) (data : Data) (u : String) (now : Nat)
    (hu : ∃ ua ∈ db.users, ua.uuid = u) :
    ∃ v ∈ getFriendLocations (userLocWriteDb db data u now) u true, v.uuid = u := by
  obtain ⟨ua, hua, huau⟩ := hu
  have husr2 : ({ ua with last_seen := some now } : UserRow) ∈
      (userLocWriteDb db data u now).users := by
    have hm := List.mem_map_of_mem
      (fun usr => if usr.uuid = u then { usr with last_seen := some now } else usr) hua
    simp only [huau, if_pos] at hm
    rw [huau]
    exact hm
  refine ⟨UserLocView.mk ua.uuid ua.email ua.nickname (data.get "latitude")
    (data.get "longitude") (data.get "altitude") (data.get "speed")
    (data.get "battery") (data.get "accuracy") now, ?_, by simpa using huau⟩
  apply (mem_getFriendLocations _ u true _).mpr
  refine ⟨{ ua with last_seen := some now }, husr2, mkUserLocRow data u now, ?_, ?_, ?_, ?_⟩
  · show mkUserLocRow data u now ∈ upsertUserLoc db.user_locations (mkUserLocRow data u now)
    unfold upsertUserLoc
    exact List.mem_append_right _ (List.mem_singleton.mpr rfl)
  · simp [mkUserLocRow, huau]
  · right
    exact ⟨rfl, by simpa using huau⟩
  · simp [mkUserLocRow]

/-! ## Device dispatch support lemmas -/

theorem eq_singleton_of_nodup_unique {α : Type} (xs : List α) (x : α)
    (hn : xs.Nodup) (hx : x ∈ xs) (huniq : ∀ z ∈ xs, z = x) : xs = [x] := by
  cases xs with
  | nil => cases hx
  | cons a tl =>
    have ha : a = x := huniq a (List.mem_cons_self a tl)
    have htl : tl = [] := by
      cases tl with
      | nil => rfl
      | cons b tb =>
        exfalso
        have hb : b = x := huniq b (List.mem_cons_of_mem a (List.mem_cons_self b tb))
        have hnotin : a ∉ (b :: tb) := (List.nodup_cons.mp hn).1
        apply hnotin
        rw [ha, ← hb]
        exact List.mem_cons_self b tb
    rw [ha, htl]

theorem length_filter_eq_one_of_key {α β : Type} [DecidableEq α] [DecidableEq β]
    (l : List α) (key : α → β) (hnodup : (l.map key).Nodup) (p : α → Bool)
    (x : α) (hx : x ∈ l) (hpx : p x = true)
    (huniq : ∀ z ∈ l, p z = true → key z = key x) :
    (l.filter p).length = 1 := by
  have hln : l.Nodup := hnodup.of_map
  have hfn : (l.filter p).Nodup := hln.filter p
  have hxf : x ∈ l.filter p := List.mem_filter.mpr ⟨hx, hpx⟩
  have huniq2 : ∀ z ∈ l.filter p, z = x := by
    intro z hz
    obtain ⟨hzl, hpz⟩ := List.mem_filter.mp hz
    exact List.inj_on_of_nodup_map hnodup hzl hx (huniq z hzl hpz)
  rw [eq_singleton_of_nodup_unique _ x hfn hxf huniq2]
  rfl

theorem filter_pair_of_all_snd (dels : List Delivery) (t : String) (msg : Msg)
    (hall : ∀ p ∈ dels, p.2 = msg) :
    dels.filter (fun p => p = (t, msg)) = dels.filter (fun p => p.1 = t) := by
  apply List.filter_congr
  intro p hp
  have h2 := hall p hp
  by_cases h1 : p.1 = t
  · have hpe : p = (t, msg) := by
      rw [Prod.ext_iff]
      exact ⟨h1, h2⟩
    simp [hpe, h1]
  · have hne : p ≠ (t, msg) := by
      intro he
      exact h1 (by rw [he])
    simp [h1, hne]

theorem filter_pair_nil (dels : List Delivery) (t : String) (msg : Msg)
    (hall : ∀ p ∈ dels, p.2 ≠ msg) :
    dels.filter (fun p => p = (t, msg)) = [] := by
  apply List.filter_eq_nil_iff.mpr
  intro p hp
  have := hall p hp
  simp only [decide_eq_true_eq]
  intro he
  exact this (by rw [he])

theorem friend_shared_msg_ne (v : DeviceLocView) :
    Msg.deviceLocations [{ v with type := "friend" }] ≠
      Msg.deviceLocations [{ v with type := "shared" }] := by
  intro h
  simp only [Msg.deviceLocations.injEq, List.cons.injEq, and_true] at h
  have := congrArg DeviceLocView.type h
  simp at this

theorem leftJoinLocs_upsert (rows : List DeviceLocRow) (row : DeviceLocRow) :
    leftJoinLocs (upsertDeviceLoc rows row) row.device_id = [some row] := by
  unfold leftJoinLocs upsertDeviceLoc
  have hfl : ((rows.filter (fun r => r.device_id ≠ row.device_id)) ++ [row]).filter
      (fun dl => dl.device_id = row.device_id) = [row] := by
    rw [List.filter_append, List.filter_filter]
    have h1 : rows.filter
        (fun r => decide (r.device_id = row.device_id) && decide (r.device_id ≠ row.device_id)) =
        [] := by
      apply List.filter_eq_nil_iff.mpr
      intro r _
      by_cases hr : r.device_id = row.device_id <;> simp [hr]
    rw [h1]
    simp
  rw [hfl]
  rfl

/-- Reduction of the device handler on the accepted path. -/
theorem handleDeviceLocationUpdate_eq (fails : Nat → Bool) (conns : Conns)
    (db : DB) (data : Data) (u : String) (now : Nat) (dev : DeviceRow)
    (htr : (resolveDeviceId data).truthy)
    (hfind : db.devices.find?
      (fun d => PyVal.str d.imei = resolveDeviceId data ∧ d.owner_uuid = u) = some dev) :
    handleDeviceLocationUpdate fails conns db data u now =
      (deviceLocWriteDb db data dev.imei now,
        (dispatchDeviceUpdate fails conns (deviceLocWriteDb db data dev.imei now) u
          (resolveDeviceId data)).1,
        (dispatchDeviceUpdate fails conns (deviceLocWriteDb db data dev.imei now) u
          (resolveDeviceId data)).2) := by
  simp only [handleDeviceLocationUpdate]
  rw [if_neg (fun hn => hn htr), hfind]

/-- Reduction of the dispatch once the fresh view is found. -/
theorem dispatchDeviceUpdate_eq (fails : Nat → Bool) (conns : Conns) (db1 : DB)
    (u : String) (did : PyVal) (v : DeviceLocView)
    (hvfind : (getDeviceLocations db1 u).find?
      (fun loc => PyVal.str loc.device_id = did) = some v) :
    dispatchDeviceUpdate fails conns db1 u did =
      ((broadcastToSharedUsers fails
          (broadcastToFriends fails conns
            (Msg.deviceLocations [{ v with type := "friend" }]) u db1).1 db1 did
          (Msg.deviceLocations [{ v with type := "shared" }])).1,
        (broadcastToFriends fails conns
          (Msg.deviceLocations [{ v with type := "friend" }]) u db1).2 ++
        (broadcastToSharedUsers fails
          (broadcastToFriends fails conns
            (Msg.deviceLocations [{ v with type := "friend" }]) u db1).1 db1 did
          (Msg.deviceLocations [{ v with type := "shared" }])).2) := by
  simp only [dispatchDeviceUpdate]
  rw [hvfind]

/-- Delivery accounting for a dispatch that broadcasts message msgF to a
first target list and then message msgS to a second target list, threading
the registry between the legs. -/
theorem dispatch_two_legs (fails : Nat → Bool) (conns : Conns) (msgF msgS : Msg)
    (targetsF targetsS : List String) (hne : msgF ≠ msgS) :
    (∀ p ∈ (sendAll fails conns msgF targetsF).2 ++
        (sendAll fails (sendAll fails conns msgF targetsF).1 msgS targetsS).2,
      p.2 = msgF ∨ p.2 = msgS) ∧
    (∀ x hx, List.lookup x conns = some hx → fails hx = false →
      (((sendAll fails conns msgF targetsF).2 ++
          (sendAll fails (sendAll fails conns msgF targetsF).1 msgS targetsS).2).filter
        (fun p => p = (x, msgF))).length = targetsF.count x) ∧
    (∀ y hy, List.lookup y conns = some hy → fails hy = false →
      (((sendAll fails conns msgF targetsF).2 ++
          (sendAll fails (sendAll fails conns msgF targetsF).1 msgS targetsS).2).filter
        (fun p => p = (y, msgS))).length = targetsS.count y) ∧
    (∀ z, z ∉ targetsF → z ∉ targetsS →
      (((sendAll fails conns msgF targetsF).2 ++
          (sendAll fails (sendAll fails conns msgF targetsF).1 msgS targetsS).2).filter
        (fun p => p.1 = z)).length = 0) := by
  have hFall : ∀ p ∈ (sendAll fails conns msgF targetsF).2, p.2 = msgF := by
    intro p hp
    unfold sendAll at hp
    rcases foldl_sendStep_messages fails msgF targetsF conns [] p hp with h | h
    · exact absurd h (List.not_mem_nil p)
    · exact h
  have hSall : ∀ p ∈ (sendAll fails (sendAll fails conns msgF targetsF).1 msgS targetsS).2,
      p.2 = msgS := by
    intro p hp
    unfold sendAll at hp
    rcases foldl_sendStep_messages fails msgS targetsS _ [] p hp with h | h
    · exact absurd h (List.not_mem_nil p)
    · exact h
  refine ⟨?_, ?_, ?_, ?_⟩
  · intro p hp
    rcases List.mem_append.mp hp with h | h
    · exact Or.inl (hFall p h)
    · exact Or.inr (hSall p h)
  · intro x hx hlx hfx
    rw [List.filter_append, List.length_append]
    rw [filter_pair_of_all_snd _ x msgF hFall]
    rw [filter_pair_nil _ x msgF (fun p hp => by rw [hSall p hp]; exact Ne.symm hne)]
    unfold sendAll
    rw [(foldl_sendStep_connected fails msgF x hx hfx targetsF conns [] hlx).2]
    simp
  · intro y hy hly hfy
    rw [List.filter_append, List.length_append]
    rw [filter_pair_nil _ y msgS (fun p hp => by rw [hFall p hp]; exact hne)]
    rw [filter_pair_of_all_snd _ y msgS hSall]
    unfold sendAll
    have hpre := foldl_sendStep_connected fails msgF y hy hfy targetsF conns [] hly
    rw [(foldl_sendStep_connected fails msgS y hy hfy targetsS _ [] hpre.1).2]
    simp
  · intro z hzF hzS
    rw [List.filter_append, List.length_append]
    unfold sendAll
    rw [foldl_sendStep_not_target fails msgF z targetsF conns [] hzF]
    rw [foldl_sendStep_not_target fails msgS z targetsS _ [] hzS]
    simp

/-! ## Initial snapshot lemmas -/

theorem mem_guard {α : Type} (c : Prop) [Decidable c] (a x : α) :
    x ∈ (if c then [a] else []) ↔ (c ∧ x = a) := by
  by_cases h : c <;> simp [h]

theorem leftJoinLocs_nil (rows : List DeviceLocRow) (imei : String)
    (h : ∀ r ∈ rows, r.device_id ≠ imei) :
    leftJoinLocs rows imei = [Option.none] := by
  unfold leftJoinLocs
  have hfl : rows.filter (fun dl => dl.device_id = imei) = [] := by
    apply List.filter_eq_nil_iff.mpr
    intro r hr
    simpa using h r hr
  rw [hfl]

/-! ## Claim C1 (confirmed) -/

/-- C1: when principal A submits a user_location update, a principal B
with an accepted friends edge to A (in either direction) and a live,
healthy connection receives the resulting user_locations message exactly
once; a connected principal with no accepted edge to A receives nothing;
and A receives nothing for this event.  The pair-uniqueness hypothesis (at
most one friends row per unordered pair, and no self-row) is the invariant
maintained by the HTTP friends endpoints, which refuse a second edge in
either direction and refuse self-friending; under it a principal appears
at most once in the audience. -/
theorem user_location_broadcast_delivery
    (fails : Nat → Bool) (conns : Conns) (db : DB) (data : Data)
    (A B Cc : String) (now : Nat) (hb : Nat)
    (husers : (db.users.map (fun usr => usr.uuid)).Nodup)
    (hAu : ∃ ua ∈ db.users, ua.uuid = A)
    (hBu : ∃ ub ∈ db.users, ub.uuid = B)
    (hedge : ∃ f ∈ db.friends, f.status = "accepted" ∧
      ((f.user_uuid = A ∧ f.friend_uuid = B) ∨ (f.user_uuid = B ∧ f.friend_uuid = A)))
    (hpair : ∀ f ∈ db.friends, ∀ g ∈ db.friends,
      ((f.user_uuid = A ∧ f.friend_uuid = B) ∨ (f.user_uuid = B ∧ f.friend_uuid = A)) →
      ((g.user_uuid = A ∧ g.friend_uuid = B) ∨ (g.user_uuid = B ∧ g.friend_uuid = A)) →
      f = g)
    (hself : ∀ f ∈ db.friends, ¬ (f.user_uuid = A ∧ f.friend_uuid = A))
    (hCno : ∀ f ∈ db.friends, f.status = "accepted" →
      ¬ ((f.user_uuid = A ∧ f.friend_uuid = Cc) ∨ (f.user_uuid = Cc ∧ f.friend_uuid = A)))
    (hconnB : List.lookup B conns = some hb)
    (hfailB : fails hb = false) :
    ((handleUserLocationUpdate fails conns db data A now).2.2.filter
        (fun p => p.1 = B)).length = 1 ∧
    ((handleUserLocationUpdate fails conns db data A now).2.2.filter
        (fun p => p.1 = Cc)).length = 0 ∧
    ((handleUserLocationUpdate fails conns db data A now).2.2.filter
        (fun p => p.1 = A)).length = 0 ∧
    (∀ p ∈ (handleUserLocationUpdate fails conns db data A now).2.2,
      ∃ v : UserLocView, p.2 = Msg.userLocations [v] ∧ v.uuid = A ∧
        v.latitude = data.get "latitude" ∧ v.longitude = data.get "longitude" ∧
        v.timestamp = now) := by
  obtain ⟨v0, hv0mem, hv0uuid⟩ := self_view_exists db data A now hAu
  have hfind_some : (((getFriendLocations (userLocWriteDb db data A now) A true)).find?
      (fun loc => loc.uuid = A)).isSome := by
    rw [List.find?_isSome]
    exact ⟨v0, hv0mem, by simp [hv0uuid]⟩
  obtain ⟨v, hfind⟩ := Option.isSome_iff_exists.mp hfind_some
  have hvmem : v ∈ getFriendLocations (userLocWriteDb db data A now) A true :=
    List.mem_of_find?_eq_some hfind
  have hvuuid : v.uuid = A := by
    have := List.find?_some hfind
    simpa using this
  have hcontent := self_view_content db data A now v hvmem hvuuid
  have hdels : (handleUserLocationUpdate fails conns db data A now).2.2 =
      (broadcastToFriends fails conns (Msg.userLocations [v]) A
        (userLocWriteDb db data A now)).2 := by
    simp only [handleUserLocationUpdate]
    rw [hfind]
  rw [hdels, broadcastToFriends_eq_sendAll]
  have husers1 : ((userLocWriteDb db data A now).users.map (fun usr => usr.uuid)).Nodup := by
    rw [userLocWriteDb_users_map_uuid]
    exact husers
  have hBu1 : ∃ ub2 ∈ (userLocWriteDb db data A now).users, ub2.uuid = B := by
    obtain ⟨ub, hub, hubB⟩ := hBu
    refine ⟨(if ub.uuid = A then { ub with last_seen := some now } else ub),
      List.mem_map_of_mem _ hub, ?_⟩
    by_cases hc : ub.uuid = A
    · rw [if_pos hc]
      exact hubB
    · rw [if_neg hc]
      exact hubB
  have hcount := friends_audience_count_one (userLocWriteDb db data A now) A B
    husers1 hBu1 hedge hpair
  have hnotC : Cc ∉ (((getUserFriends (userLocWriteDb db data A now) A).filter
      (fun fr => fr.status = "accepted")).map (fun fr => fr.uuid)) :=
    friends_audience_not_mem (userLocWriteDb db data A now) A Cc hCno
  have hnotA : A ∉ (((getUserFriends (userLocWriteDb db data A now) A).filter
      (fun fr => fr.status = "accepted")).map (fun fr => fr.uuid)) := by
    apply friends_audience_not_mem (userLocWriteDb db data A now) A A
    intro f hf _ hor
    rcases hor with ⟨h1, h2⟩ | ⟨h1, h2⟩
    · exact hself f hf ⟨h1, h2⟩
    · exact hself f hf ⟨h1, h2⟩
  unfold sendAll
  refine ⟨?_, ?_, ?_, ?_⟩
  · have := (foldl_sendStep_connected fails (Msg.userLocations [v]) B hb hfailB
      (((getUserFriends (userLocWriteDb db data A now) A).filter
        (fun fr => fr.status = "accepted")).map (fun fr => fr.uuid)) conns [] hconnB).2
    rw [this, hcount]
    rfl
  · have := foldl_sendStep_not_target fails (Msg.userLocations [v]) Cc
      (((getUserFriends (userLocWriteDb db data A now) A).filter
        (fun fr => fr.status = "accepted")).map (fun fr => fr.uuid)) conns [] hnotC
    rw [this]
    rfl
  · have := foldl_sendStep_not_target fails (Msg.userLocations [v]) A
      (((getUserFriends (userLocWriteDb db data A now) A).filter
        (fun fr => fr.status = "accepted")).map (fun fr => fr.uuid)) conns [] hnotA
    rw [this]
    rfl
  · intro p hp
    rcases foldl_sendStep_messages fails (Msg.userLocations [v]) _ conns [] p hp with
      hin | hmsg
    · exact absurd hin (List.not_mem_nil p)
    · exact ⟨v, hmsg, hvuuid, hcontent.1, hcontent.2.1, hcontent.2.2⟩

/-- C1 witness: alice and bob accepted friends, carol unrelated, all three
connected; alice submits a location update. -/
theorem user_location_broadcast_delivery_witness :
    ((List.map (fun usr => usr.uuid)
      (DB.mk [UserRow.mk "alice" "a@x" "A" Option.none,
        UserRow.mk "bob" "b@x" "B" Option.none,
        UserRow.mk "carol" "c@x" "C" Option.none]
        [FriendRow.mk "alice" "bob" "accepted" 0] [] [] [] [] [] []).users).Nodup) ∧
    (∃ f ∈ (DB.mk [UserRow.mk "alice" "a@x" "A" Option.none,
        UserRow.mk "bob" "b@x" "B" Option.none,
        UserRow.mk "carol" "c@x" "C" Option.none]
        [FriendRow.mk "alice" "bob" "accepted" 0] [] [] [] [] [] []).friends,
      f.status = "accepted" ∧
      ((f.user_uuid = "alice" ∧ f.friend_uuid = "bob") ∨
        (f.user_uuid = "bob" ∧ f.friend_uuid = "alice"))) ∧
    List.lookup "bob" ([("alice", 0), ("bob", 1), ("carol", 2)] : Conns) = some 1 ∧
    (((handleUserLocationUpdate (fun _ => false) [("alice", 0), ("bob", 1), ("carol", 2)]
        (DB.mk [UserRow.mk "alice" "a@x" "A" Option.none,
          UserRow.mk "bob" "b@x" "B" Option.none,
          UserRow.mk "carol" "c@x" "C" Option.none]
          [FriendRow.mk "alice" "bob" "accepted" 0] [] [] [] [] [] [])
        [("latitude", PyVal.num 59), ("longitude", PyVal.num 10)] "alice" 10).2.2.filter
        (fun p => p.1 = "bob")).length = 1 ∧
      ((handleUserLocationUpdate (fun _ => false) [("alice", 0), ("bob", 1), ("carol", 2)]
        (DB.mk [UserRow.mk "alice" "a@x" "A" Option.none,
          UserRow.mk "bob" "b@x" "B" Option.none,
          UserRow.mk "carol" "c@x" "C" Option.none]
          [FriendRow.mk "alice" "bob" "accepted" 0] [] [] [] [] [] [])
        [("latitude", PyVal.num 59), ("longitude", PyVal.num 10)] "alice" 10).2.2.filter
        (fun p => p.1 = "carol")).length = 0 ∧
      ((handleUserLocationUpdate (fun _ => false) [("alice", 0), ("bob", 1), ("carol", 2)]
        (DB.mk [UserRow.mk "alice" "a@x" "A" Option.none,
          UserRow.mk "bob" "b@x" "B" Option.none,
          UserRow.mk "carol" "c@x" "C" Option.none]
          [FriendRow.mk "alice" "bob" "accepted" 0] [] [] [] [] [] [])
        [("latitude", PyVal.num 59), ("longitude", PyVal.num 10)] "alice" 10).2.2.filter
        (fun p => p.1 = "alice")).length = 0 ∧
      (∀ p ∈ (handleUserLocationUpdate (fun _ => false) [("alice", 0), ("bob", 1), ("carol", 2)]
        (DB.mk [UserRow.mk "alice" "a@x" "A" Option.none,
          UserRow.mk "bob" "b@x" "B" Option.none,
          UserRow.mk "carol" "c@x" "C" Option.none]
          [FriendRow.mk "alice" "bob" "accepted" 0] [] [] [] [] [] [])
        [("latitude", PyVal.num 59), ("longitude", PyVal.num 10)] "alice" 10).2.2,
        ∃ v : UserLocView, p.2 = Msg.userLocations [v] ∧ v.uuid = "alice" ∧
          v.latitude = Data.get [("latitude", PyVal.num 59), ("longitude", PyVal.num 10)]
            "latitude" ∧
          v.longitude = Data.get [("latitude", PyVal.num 59), ("longitude", PyVal.num 10)]
            "longitude" ∧
          v.timestamp = 10)) :=
  ⟨by decide, by decide, by decide,
    user_location_broadcast_delivery (fun _ => false)
      [("alice", 0), ("bob", 1), ("carol", 2)]
      (DB.mk [UserRow.mk "alice" "a@x" "A" Option.none,
        UserRow.mk "bob" "b@x" "B" Option.none,
        UserRow.mk "carol" "c@x" "C" Option.none]
        [FriendRow.mk "alice" "bob" "accepted" 0] [] [] [] [] [] [])
      [("latitude", PyVal.num 59), ("longitude", PyVal.num 10)]
      "alice" "bob" "carol" 10 1
      (by decide) (by decide) (by decide) (by decide) (by decide) (by decide)
      (by decide) (by decide) (by decide)⟩

/-! ## Claim C2 (corrected) -/

/-- C2 counterexample: the claim asserts that after registering principal
P with handle 1 and then handle 2, an unregister issued on behalf of the
stale first session does NOT remove the fresh mapping.  In the code,
ConnectionManager.disconnect takes only the uuid and never compares
handles, so the stale teardown removes the fresh P-to-2 mapping: the
registry is empty afterwards. -/
theorem registry_stale_unregister_removes_fresh_mapping :
    disconnect (connect (connect [] "P" 1) "P" 2) "P" = [] ∧
    List.lookup "P" (disconnect (connect (connect [] "P" 1) "P" 2) "P") = Option.none := by
  constructor
  · rfl
  · rfl

/-- C2 amended: registering P twice with handles h1 then h2 leaves exactly
one live mapping, to h2; but unregister removes P's mapping
unconditionally whenever one exists, with no comparison of the stored
handle against the caller's handle, so a late unregister from the stale
session does remove the fresh mapping. -/
theorem registry_register_twice_unregister_unconditional (conns : Conns)
    (u : String) (h1 h2 : Nat) :
    List.lookup u (connect (connect conns u h1) u h2) = some h2 ∧
    ((connect (connect conns u h1) u h2).filter (fun p => p.1 = u)).length = 1 ∧
    List.lookup u (disconnect (connect (connect conns u h1) u h2) u) = Option.none := by
  refine ⟨lookup_connect_self _ u h2, filter_key_connect _ u h2, lookup_disconnect_self _ u⟩

/-! ## Claim C3 (corrected) -/

/-- C3 counterexample: the claim asserts distinct close codes for the
"token required" and "invalid token" handshake rejections; the code uses
close code 4001 for both, so the two codes are equal. -/
theorem handshake_close_codes_equal :
    (wsHandshake (fun _ => Option.none) Option.none).closeCode = some 4001 ∧
    (wsHandshake (fun _ => Option.none) (some "expiredtoken")).closeCode = some 4001 := by
  constructor
  · rfl
  · rfl

/-- C3 amended: a missing (or empty, hence falsy) token closes the
connection immediately with non-default code 4001 and reason "Token
required"; an unresolvable token closes immediately with the same
non-default code 4001 and reason "Invalid token"; neither rejection ever
reaches the accepted state; the two rejections are distinguished by
reason string only, not by close code. -/
theorem handshake_rejections (resolve : String → Option String) (t : String)
    (hne : t ≠ "") (hbad : resolve t = Option.none) :
    wsHandshake resolve Option.none = HandshakeResult.closed 4001 "Token required" ∧
    wsHandshake resolve (some "") = HandshakeResult.closed 4001 "Token required" ∧
    wsHandshake resolve (some t) = HandshakeResult.closed 4001 "Invalid token" ∧
    (∀ u, wsHandshake resolve Option.none ≠ HandshakeResult.accepted u) ∧
    (∀ u, wsHandshake resolve (some t) ≠ HandshakeResult.accepted u) ∧
    (4001 : Nat) ≠ 1000 := by
  have hsome : wsHandshake resolve (some t) =
      if t = "" then HandshakeResult.closed 4001 "Token required"
      else match resolve t with
        | Option.none => HandshakeResult.closed 4001 "Invalid token"
        | some user_uuid => HandshakeResult.accepted user_uuid := rfl
  refine ⟨rfl, by simp [wsHandshake], ?_, fun u => by simp [wsHandshake], ?_, by decide⟩
  · rw [hsome, if_neg hne, hbad]
  · intro u
    rw [hsome, if_neg hne, hbad]
    exact fun hcontr => HandshakeResult.noConfusion hcontr

/-- C3 amended, witness at a concrete invalid token. -/
theorem handshake_rejections_witness :
    ("badtoken" : String) ≠ "" ∧
    (fun _ : String => (Option.none : Option String)) "badtoken" = Option.none ∧
    wsHandshake (fun _ => Option.none) (some "badtoken") =
      HandshakeResult.closed 4001 "Invalid token" := by
  refine ⟨by decide, rfl, ?_⟩
  exact (handshake_rejections (fun _ => Option.none) "badtoken" (by decide) rfl).2.2.1

/-! ## Claim C8 (confirmed) -/

/-- C8: Presence Registry send is a no-op leaving the registry unchanged
when the target has no live mapping; when the transport raises, the
failure is absorbed (the model function is total, mirroring the
try/except), the target's mapping is removed, and a subsequent send to the
same target short-circuits as a no-op. -/
theorem send_absent_noop_and_failure_self_healing (fails : Nat → Bool)
    (conns : Conns) (m m2 : Msg) (u : String) :
    (List.lookup u conns = Option.none →
      sendPersonalMessage fails conns m u = (conns, [])) ∧
    (∀ h, List.lookup u conns = some h → fails h = true →
      sendPersonalMessage fails conns m u = (disconnect conns u, []) ∧
      List.lookup u (disconnect conns u) = Option.none ∧
      sendPersonalMessage fails (disconnect conns u) m2 u = (disconnect conns u, [])) := by
  constructor
  · intro h
    unfold sendPersonalMessage
    rw [h]
  · intro h hlook hfail
    refine ⟨?_, lookup_disconnect_self conns u, ?_⟩
    · unfold sendPersonalMessage
      rw [hlook]
      show (if fails h = true then (disconnect conns u, ([] : List Delivery))
          else (conns, [(u, m)])) = (disconnect conns u, [])
      rw [hfail]
      simp
    · unfold sendPersonalMessage
      rw [lookup_disconnect_self conns u]

/-- C8 witness: concrete registry with alice on a failing handle and bob
absent. -/
theorem send_absent_noop_and_failure_self_healing_witness :
    (List.lookup "bob" ([("alice", 5)] : Conns) = Option.none ∧
      sendPersonalMessage (fun h => h == 5) [("alice", 5)] (Msg.groups []) "bob" =
        ([("alice", 5)], [])) ∧
    (List.lookup "alice" ([("alice", 5)] : Conns) = some 5 ∧
      (fun h => h == 5) 5 = true ∧
      sendPersonalMessage (fun h => h == 5) [("alice", 5)] (Msg.groups []) "alice" =
        (disconnect [("alice", 5)] "alice", []) ∧
      List.lookup "alice" (disconnect ([("alice", 5)] : Conns) "alice") = Option.none ∧
      sendPersonalMessage (fun h => h == 5) (disconnect [("alice", 5)] "alice")
        (Msg.userLocations []) "alice" = (disconnect [("alice", 5)] "alice", [])) := by
  refine ⟨⟨by decide, ?_⟩, by decide, by decide, ?_⟩
  · exact (send_absent_noop_and_failure_self_healing (fun h => h == 5) [("alice", 5)]
      (Msg.groups []) (Msg.userLocations []) "bob").1 (by decide)
  · exact (send_absent_noop_and_failure_self_healing (fun h => h == 5) [("alice", 5)]
      (Msg.groups []) (Msg.userLocations []) "alice").2 5 (by decide) (by decide)

/-! ## Claim C6 (confirmed) -/

/-- C6: a device_location message whose resolved device id is falsy
(missing or empty device_id/imei), or that names a device the reporting
principal does not own, is dropped: the database is unchanged, the
registry is unchanged, and no message is dispatched to anyone, in
particular no error reply to the caller.  (The warning log is outside the
model.) -/
theorem device_update_rejected_is_noop (fails : Nat → Bool) (conns : Conns)
    (db : DB) (data : Data) (user_uuid : String) (now : Nat) :
    (¬ (resolveDeviceId data).truthy →
      handleDeviceLocationUpdate fails conns db data user_uuid now = (db, conns, [])) ∧
    (db.devices.find?
        (fun d => PyVal.str d.imei = resolveDeviceId data ∧ d.owner_uuid = user_uuid) =
        Option.none →
      handleDeviceLocationUpdate fails conns db data user_uuid now = (db, conns, [])) := by
  constructor
  · intro h
    simp only [handleDeviceLocationUpdate]
    rw [if_pos h]
  · intro h
    simp only [handleDeviceLocationUpdate]
    by_cases ht : (resolveDeviceId data).truthy
    · rw [if_neg (fun hn => hn ht), h]
    · rw [if_pos ht]

/-- C6 witness: an update with no id keys at all, and an update for IMEI
123 from mallory who does not own it. -/
theorem device_update_rejected_is_noop_witness :
    (¬ (resolveDeviceId ([] : Data)).truthy ∧
      handleDeviceLocationUpdate (fun _ => false) [("mallory", 3)]
        (DB.mk [UserRow.mk "alice" "a@x" "Alice" Option.none]
          [] [] [DeviceRow.mk "123" "alice" "Rex" Option.none] [] [] [] [])
        ([] : Data) "mallory" 7 =
        (DB.mk [UserRow.mk "alice" "a@x" "Alice" Option.none]
          [] [] [DeviceRow.mk "123" "alice" "Rex" Option.none] [] [] [] [],
          [("mallory", 3)], [])) ∧
    ((DB.mk [UserRow.mk "alice" "a@x" "Alice" Option.none]
        [] [] [DeviceRow.mk "123" "alice" "Rex" Option.none] [] [] [] []).devices.find?
        (fun d => PyVal.str d.imei =
            resolveDeviceId ([("imei", PyVal.str "123")] : Data) ∧
          d.owner_uuid = "mallory") = Option.none ∧
      handleDeviceLocationUpdate (fun _ => false) [("mallory", 3)]
        (DB.mk [UserRow.mk "alice" "a@x" "Alice" Option.none]
          [] [] [DeviceRow.mk "123" "alice" "Rex" Option.none] [] [] [] [])
        ([("imei", PyVal.str "123")] : Data) "mallory" 7 =
        (DB.mk [UserRow.mk "alice" "a@x" "Alice" Option.none]
          [] [] [DeviceRow.mk "123" "alice" "Rex" Option.none] [] [] [] [],
          [("mallory", 3)], [])) := by
  refine ⟨⟨by decide, ?_⟩, ⟨by decide, ?_⟩⟩
  · exact (device_update_rejected_is_noop (fun _ => false) [("mallory", 3)]
      (DB.mk [UserRow.mk "alice" "a@x" "Alice" Option.none]
        [] [] [DeviceRow.mk "123" "alice" "Rex" Option.none] [] [] [] [])
      ([] : Data) "mallory" 7).1 (by decide)
  · exact (device_update_rejected_is_noop (fun _ => false) [("mallory", 3)]
      (DB.mk [UserRow.mk "alice" "a@x" "Alice" Option.none]
        [] [] [DeviceRow.mk "123" "alice" "Rex" Option.none] [] [] [] [])
      ([("imei", PyVal.str "123")] : Data) "mallory" 7).2 (by decide)

/-! ## Claim C10 (confirmed) -/

/-- C10: a falsy primary field falls through to the legacy alias by Python
`or`: latitude equal to 0 stores the lat alias value (None when absent),
longitude equal to 0 stores the lon alias value, and an empty-string
device_id resolves through the imei alias; and the accepted path of the
handler stores exactly the row built this way. -/
theorem zero_coordinate_falls_to_alias (fails : Nat → Bool) (conns : Conns)
    (db : DB) (data : Data) (user_uuid imei : String) (now : Nat) :
    (data.get "latitude" = PyVal.num 0 →
      (mkDeviceLocRow data imei now).latitude = data.get "lat") ∧
    (data.get "longitude" = PyVal.num 0 →
      (mkDeviceLocRow data imei now).longitude = data.get "lon") ∧
    (data.get "device_id" = PyVal.str "" →
      resolveDeviceId data = data.get "imei") ∧
    (∀ dev, (resolveDeviceId data).truthy →
      db.devices.find?
          (fun d => PyVal.str d.imei = resolveDeviceId data ∧ d.owner_uuid = user_uuid) =
          some dev →
      (handleDeviceLocationUpdate fails conns db data user_uuid now).1.device_locations =
        upsertDeviceLoc db.device_locations (mkDeviceLocRow data dev.imei now)) := by
  refine ⟨?_, ?_, ?_, ?_⟩
  · intro h
    simp [mkDeviceLocRow, pyOr, h, PyVal.truthy]
  · intro h
    simp [mkDeviceLocRow, pyOr, h, PyVal.truthy]
  · intro h
    simp [resolveDeviceId, pyOr, h, PyVal.truthy]
  · intro dev htr hfind
    simp only [handleDeviceLocationUpdate]
    rw [if_neg (fun hn => hn htr), hfind]
    rfl

/-- C10 witness: zero coordinates with aliases present, empty device_id
with imei alias, on a device owned by the reporter. -/
theorem zero_coordinate_falls_to_alias_witness :
    (Data.get [("device_id", PyVal.str ""), ("imei", PyVal.str "123"),
        ("latitude", PyVal.num 0), ("lat", PyVal.num 7),
        ("longitude", PyVal.num 0), ("lon", PyVal.num 8)] "latitude" = PyVal.num 0 ∧
      (mkDeviceLocRow [("device_id", PyVal.str ""), ("imei", PyVal.str "123"),
        ("latitude", PyVal.num 0), ("lat", PyVal.num 7),
        ("longitude", PyVal.num 0), ("lon", PyVal.num 8)] "123" 7).latitude =
        PyVal.num 7) ∧
    ((mkDeviceLocRow [("device_id", PyVal.str ""), ("imei", PyVal.str "123"),
        ("latitude", PyVal.num 0), ("lat", PyVal.num 7),
        ("longitude", PyVal.num 0), ("lon", PyVal.num 8)] "123" 7).longitude =
        PyVal.num 8) ∧
    (resolveDeviceId [("device_id", PyVal.str ""), ("imei", PyVal.str "123"),
        ("latitude", PyVal.num 0), ("lat", PyVal.num 7),
        ("longitude", PyVal.num 0), ("lon", PyVal.num 8)] = PyVal.str "123") := by
  have h := zero_coordinate_falls_to_alias (fun _ => false) []
    (DB.mk [] [] [] [] [] [] [] [])
    [("device_id", PyVal.str ""), ("imei", PyVal.str "123"),
      ("latitude", PyVal.num 0), ("lat", PyVal.num 7),
      ("longitude", PyVal.num 0), ("lon", PyVal.num 8)] "u" "123" 7
  refine ⟨⟨by decide, ?_⟩, ?_, ?_⟩
  · have := h.1 (by decide)
    rw [this]
    decide
  · have := h.2.1 (by decide)
    rw [this]
    decide
  · have := h.2.2.1 (by decide)
    rw [this]
    decide

/-! ## Claim C7 (confirmed) -/

/-- C7: on an accepted device location update from the owner, there is a
fresh view v of the device such that every dispatched message is v
re-tagged friend or v re-tagged shared (so no group_member-tagged message
is ever dispatched); a connected, healthy accepted friend of the owner
receives the friend-tagged message exactly once (under the friends-table
pair-uniqueness invariant); a connected, healthy principal holding a
device-share row for the device receives the shared-tagged message exactly
once (device_shares primary key gives row uniqueness); and a principal
with neither an accepted friend edge to the owner nor a share row for the
device, for example a mere group co-member, receives nothing. -/
theorem device_update_audience
    (fails : Nat → Bool) (conns : Conns) (db : DB) (data : Data)
    (u : String) (now : Nat) (dev : DeviceRow)
    (husers : (db.users.map (fun usr => usr.uuid)).Nodup)
    (hshares : (db.device_shares.map
      (fun ds => (ds.device_imei, ds.shared_with_uuid))).Nodup)
    (hu : ∃ ua ∈ db.users, ua.uuid = u)
    (htr : (resolveDeviceId data).truthy)
    (hfind : db.devices.find?
      (fun d => PyVal.str d.imei = resolveDeviceId data ∧ d.owner_uuid = u) = some dev) :
    ∃ v : DeviceLocView,
      (∀ p ∈ (handleDeviceLocationUpdate fails conns db data u now).2.2,
        p.2 = Msg.deviceLocations [{ v with type := "friend" }] ∨
        p.2 = Msg.deviceLocations [{ v with type := "shared" }]) ∧
      (∀ x hx, List.lookup x conns = some hx → fails hx = false →
        (∃ ux ∈ db.users, ux.uuid = x) →
        (∃ f ∈ db.friends, f.status = "accepted" ∧
          ((f.user_uuid = u ∧ f.friend_uuid = x) ∨ (f.user_uuid = x ∧ f.friend_uuid = u))) →
        (∀ f ∈ db.friends, ∀ g ∈ db.friends,
          ((f.user_uuid = u ∧ f.friend_uuid = x) ∨ (f.user_uuid = x ∧ f.friend_uuid = u)) →
          ((g.user_uuid = u ∧ g.friend_uuid = x) ∨ (g.user_uuid = x ∧ g.friend_uuid = u)) →
          f = g) →
        ((handleDeviceLocationUpdate fails conns db data u now).2.2.filter
          (fun p => p = (x, Msg.deviceLocations [{ v with type := "friend" }]))).length = 1) ∧
      (∀ y hy, List.lookup y conns = some hy → fails hy = false →
        (∃ ds ∈ db.device_shares, ds.device_imei = dev.imei ∧ ds.shared_with_uuid = y) →
        ((handleDeviceLocationUpdate fails conns db data u now).2.2.filter
          (fun p => p = (y, Msg.deviceLocations [{ v with type := "shared" }]))).length = 1) ∧
      (∀ z, (∀ f ∈ db.friends, f.status = "accepted" →
          ¬ ((f.user_uuid = u ∧ f.friend_uuid = z) ∨ (f.user_uuid = z ∧ f.friend_uuid = u))) →
        (∀ ds ∈ db.device_shares, ¬ (ds.device_imei = dev.imei ∧ ds.shared_with_uuid = z)) →
        ((handleDeviceLocationUpdate fails conns db data u now).2.2.filter
          (fun p => p.1 = z)).length = 0) := by
  have hfp0 := List.find?_some hfind
  simp only [decide_eq_true_eq] at hfp0
  obtain ⟨hdid, howner⟩ := hfp0
  obtain ⟨ua, hua, huau⟩ := hu
  have hdevmem := List.mem_of_find?_eq_some hfind
  have hdev2 : ({ dev with last_seen := some now } : DeviceRow) ∈
      (deviceLocWriteDb db data dev.imei now).devices := by
    refine List.mem_map.mpr ⟨dev, hdevmem, ?_⟩
    show (if dev.imei = dev.imei then ({ dev with last_seen := some now } : DeviceRow)
        else dev) = { dev with last_seen := some now }
    rw [if_pos rfl]
  have hlj : leftJoinLocs (deviceLocWriteDb db data dev.imei now).device_locations
      ({ dev with last_seen := some now } : DeviceRow).imei =
      [some (mkDeviceLocRow data dev.imei now)] :=
    leftJoinLocs_upsert db.device_locations (mkDeviceLocRow data dev.imei now)
  have hv0 : mkDeviceLocView { dev with last_seen := some now } ua
      (some (mkDeviceLocRow data dev.imei now)) "own" ∈
      getDeviceLocations (deviceLocWriteDb db data dev.imei now) u := by
    unfold getDeviceLocations
    apply List.mem_append_left
    apply List.mem_flatMap.mpr
    refine ⟨{ dev with last_seen := some now }, ?_, ?_⟩
    · apply List.mem_filter.mpr
      refine ⟨hdev2, ?_⟩
      simp only [decide_eq_true_eq]
      exact howner
    · apply List.mem_flatMap.mpr
      refine ⟨ua, ?_, ?_⟩
      · apply List.mem_filter.mpr
        refine ⟨hua, ?_⟩
        simp only [decide_eq_true_eq]
        show ua.uuid = dev.owner_uuid
        rw [huau, howner]
      · apply List.mem_map.mpr
        refine ⟨some (mkDeviceLocRow data dev.imei now), ?_, rfl⟩
        rw [hlj]
        exact List.mem_singleton.mpr rfl
  have hvs : (((getDeviceLocations (deviceLocWriteDb db data dev.imei now) u)).find?
      (fun loc => PyVal.str loc.device_id = resolveDeviceId data)).isSome := by
    rw [List.find?_isSome]
    refine ⟨_, hv0, ?_⟩
    simp only [decide_eq_true_eq]
    show PyVal.str dev.imei = resolveDeviceId data
    exact hdid
  obtain ⟨v, hvfind⟩ := Option.isSome_iff_exists.mp hvs
  refine ⟨v, ?_⟩
  have hdels : (handleDeviceLocationUpdate fails conns db data u now).2.2 =
      (sendAll fails conns (Msg.deviceLocations [{ v with type := "friend" }])
        (((getUserFriends (deviceLocWriteDb db data dev.imei now) u).filter
          (fun fr => fr.status = "accepted")).map (fun fr => fr.uuid))).2 ++
      (sendAll fails
        (sendAll fails conns (Msg.deviceLocations [{ v with type := "friend" }])
          (((getUserFriends (deviceLocWriteDb db data dev.imei now) u).filter
            (fun fr => fr.status = "accepted")).map (fun fr => fr.uuid))).1
        (Msg.deviceLocations [{ v with type := "shared" }])
        (((deviceLocWriteDb db data dev.imei now).device_shares.filter
          (fun ds => PyVal.str ds.device_imei = resolveDeviceId data)).map
          (fun ds => ds.shared_with_uuid))).2 := by
    rw [handleDeviceLocationUpdate_eq fails conns db data u now dev htr hfind]
    rw [dispatchDeviceUpdate_eq fails conns (deviceLocWriteDb db data dev.imei now) u
      (resolveDeviceId data) v hvfind]
    rw [broadcastToFriends_eq_sendAll, broadcastToSharedUsers_eq_sendAll]
  have htwo := dispatch_two_legs fails conns
    (Msg.deviceLocations [{ v with type := "friend" }])
    (Msg.deviceLocations [{ v with type := "shared" }])
    (((getUserFriends (deviceLocWriteDb db data dev.imei now) u).filter
      (fun fr => fr.status = "accepted")).map (fun fr => fr.uuid))
    (((deviceLocWriteDb db data dev.imei now).device_shares.filter
      (fun ds => PyVal.str ds.device_imei = resolveDeviceId data)).map
      (fun ds => ds.shared_with_uuid))
    (friend_shared_msg_ne v)
  refine ⟨?_, ?_, ?_, ?_⟩
  · intro p hp
    rw [hdels] at hp
    exact htwo.1 p hp
  · intro x hx hlx hfx hxu hxedge hxpair
    rw [hdels, htwo.2.1 x hx hlx hfx]
    exact friends_audience_count_one (deviceLocWriteDb db data dev.imei now) u x
      husers hxu hxedge hxpair
  · intro y hy hly hfy hysh
    obtain ⟨ds, hds, hdsi, hdsy⟩ := hysh
    rw [hdels, htwo.2.2.1 y hy hly hfy]
    rw [count_map_key, List.filter_filter]
    apply length_filter_eq_one_of_key _ (fun ds => (ds.device_imei, ds.shared_with_uuid))
      hshares _ ds hds
    · have h1 : PyVal.str ds.device_imei = resolveDeviceId data := by
        rw [hdsi]
        exact hdid
      simp [h1, hdsy]
    · intro z hz hpz
      rw [Bool.and_eq_true] at hpz
      obtain ⟨d1, d2⟩ := hpz
      have hzy : z.shared_with_uuid = y := of_decide_eq_true d1
      have hzstr : PyVal.str z.device_imei = resolveDeviceId data := of_decide_eq_true d2
      have hzimei : z.device_imei = dev.imei :=
        PyVal.str.inj (hzstr.trans hdid.symm)
      show (z.device_imei, z.shared_with_uuid) = (ds.device_imei, ds.shared_with_uuid)
      rw [hzimei, hzy, hdsi, hdsy]
  · intro z hzf hzs
    rw [hdels, htwo.2.2.2 z ?_ ?_]
    · apply friends_audience_not_mem (deviceLocWriteDb db data dev.imei now) u z
      exact hzf
    · intro hmem
      obtain ⟨ds, hds, hdsz⟩ := List.mem_map.mp hmem
      obtain ⟨hds2, hdspred⟩ := List.mem_filter.mp hds
      have hstr : PyVal.str ds.device_imei = resolveDeviceId data :=
        of_decide_eq_true hdspred
      have himei : ds.device_imei = dev.imei :=
        PyVal.str.inj (hstr.trans hdid.symm)
      exact hzs ds hds2 ⟨himei, hdsz⟩

/-- C7 witness: alice owns device 123 shared with carol; bob is an
accepted friend; dave is connected and unrelated; the deliveries go to bob
then carol. -/
theorem device_update_audience_witness :
    ((DB.mk [UserRow.mk "alice" "a@x" "A" Option.none,
        UserRow.mk "bob" "b@x" "B" Option.none,
        UserRow.mk "carol" "c@x" "C" Option.none,
        UserRow.mk "dave" "d@x" "D" Option.none]
      [FriendRow.mk "alice" "bob" "accepted" 0] []
      [DeviceRow.mk "123" "alice" "Rex" Option.none] []
      [DeviceShareRow.mk "123" "alice" "carol"] [] []).devices.find?
        (fun d => PyVal.str d.imei =
            resolveDeviceId [("device_id", PyVal.str "123"), ("latitude", PyVal.num 60)] ∧
          d.owner_uuid = "alice") =
      some (DeviceRow.mk "123" "alice" "Rex" Option.none)) ∧
    (resolveDeviceId [("device_id", PyVal.str "123"),
      ("latitude", PyVal.num 60)]).truthy = true ∧
    ((handleDeviceLocationUpdate (fun _ => false)
        [("alice", 0), ("bob", 1), ("carol", 2), ("dave", 3)]
        (DB.mk [UserRow.mk "alice" "a@x" "A" Option.none,
          UserRow.mk "bob" "b@x" "B" Option.none,
          UserRow.mk "carol" "c@x" "C" Option.none,
          UserRow.mk "dave" "d@x" "D" Option.none]
          [FriendRow.mk "alice" "bob" "accepted" 0] []
          [DeviceRow.mk "123" "alice" "Rex" Option.none] []
          [DeviceShareRow.mk "123" "alice" "carol"] [] [])
        [("device_id", PyVal.str "123"), ("latitude", PyVal.num 60)]
        "alice" 5).2.2.map (fun p => p.1) = ["bob", "carol"]) ∧
    (∃ v : DeviceLocView,
      (∀ p ∈ (handleDeviceLocationUpdate (fun _ => false)
          [("alice", 0), ("bob", 1), ("carol", 2), ("dave", 3)]
          (DB.mk [UserRow.mk "alice" "a@x" "A" Option.none,
            UserRow.mk "bob" "b@x" "B" Option.none,
            UserRow.mk "carol" "c@x" "C" Option.none,
            UserRow.mk "dave" "d@x" "D" Option.none]
            [FriendRow.mk "alice" "bob" "accepted" 0] []
            [DeviceRow.mk "123" "alice" "Rex" Option.none] []
            [DeviceShareRow.mk "123" "alice" "carol"] [] [])
          [("device_id", PyVal.str "123"), ("latitude", PyVal.num 60)]
          "alice" 5).2.2,
        p.2 = Msg.deviceLocations [{ v with type := "friend" }] ∨
        p.2 = Msg.deviceLocations [{ v with type := "shared" }]) ∧
      (∀ x hx, List.lookup x ([("alice", 0), ("bob", 1), ("carol", 2), ("dave", 3)] : Conns) =
          some hx → (fun _ : Nat => false) hx = false →
        (∃ ux ∈ (DB.mk [UserRow.mk "alice" "a@x" "A" Option.none,
            UserRow.mk "bob" "b@x" "B" Option.none,
            UserRow.mk "carol" "c@x" "C" Option.none,
            UserRow.mk "dave" "d@x" "D" Option.none]
            [FriendRow.mk "alice" "bob" "accepted" 0] []
            [DeviceRow.mk "123" "alice" "Rex" Option.none] []
            [DeviceShareRow.mk "123" "alice" "carol"] [] []).users, ux.uuid = x) →
        (∃ f ∈ (DB.mk [UserRow.mk "alice" "a@x" "A" Option.none,
            UserRow.mk "bob" "b@x" "B" Option.none,
            UserRow.mk "carol" "c@x" "C" Option.none,
            UserRow.mk "dave" "d@x" "D" Option.none]
            [FriendRow.mk "alice" "bob" "accepted" 0] []
            [DeviceRow.mk "123" "alice" "Rex" Option.none] []
            [DeviceShareRow.mk "123" "alice" "carol"] [] []).friends,
          f.status = "accepted" ∧
          ((f.user_uuid = "alice" ∧ f.friend_uuid = x) ∨
            (f.user_uuid = x ∧ f.friend_uuid = "alice"))) →
        (∀ f ∈ (DB.mk [UserRow.mk "alice" "a@x" "A" Option.none,
            UserRow.mk "bob" "b@x" "B" Option.none,
            UserRow.mk "carol" "c@x" "C" Option.none,
            UserRow.mk "dave" "d@x" "D" Option.none]
            [FriendRow.mk "alice" "bob" "accepted" 0] []
            [DeviceRow.mk "123" "alice" "Rex" Option.none] []
            [DeviceShareRow.mk "123" "alice" "carol"] [] []).friends,
          ∀ g ∈ (DB.mk [UserRow.mk "alice" "a@x" "A" Option.none,
            UserRow.mk "bob" "b@x" "B" Option.none,
            UserRow.mk "carol" "c@x" "C" Option.none,
            UserRow.mk "dave" "d@x" "D" Option.none]
            [FriendRow.mk "alice" "bob" "accepted" 0] []
            [DeviceRow.mk "123" "alice" "Rex" Option.none] []
            [DeviceShareRow.mk "123" "alice" "carol"] [] []).friends,
          ((f.user_uuid = "alice" ∧ f.friend_uuid = x) ∨
            (f.user_uuid = x ∧ f.friend_uuid = "alice")) →
          ((g.user_uuid = "alice" ∧ g.friend_uuid = x) ∨
            (g.user_uuid = x ∧ g.friend_uuid = "alice")) →
          f = g) →
        ((handleDeviceLocationUpdate (fun _ => false)
          [("alice", 0), ("bob", 1), ("carol", 2), ("dave", 3)]
          (DB.mk [UserRow.mk "alice" "a@x" "A" Option.none,
            UserRow.mk "bob" "b@x" "B" Option.none,
            UserRow.mk "carol" "c@x" "C" Option.none,
            UserRow.mk "dave" "d@x" "D" Option.none]
            [FriendRow.mk "alice" "bob" "accepted" 0] []
            [DeviceRow.mk "123" "alice" "Rex" Option.none] []
            [DeviceShareRow.mk "123" "alice" "carol"] [] [])
          [("device_id", PyVal.str "123"), ("latitude", PyVal.num 60)]
          "alice" 5).2.2.filter
          (fun p => p = (x, Msg.deviceLocations [{ v with type := "friend" }]))).length = 1) ∧
      (∀ y hy, List.lookup y ([("alice", 0), ("bob", 1), ("carol", 2), ("dave", 3)] : Conns) =
          some hy → (fun _ : Nat => false) hy = false →
        (∃ ds ∈ (DB.mk [UserRow.mk "alice" "a@x" "A" Option.none,
            UserRow.mk "bob" "b@x" "B" Option.none,
            UserRow.mk "carol" "c@x" "C" Option.none,
            UserRow.mk "dave" "d@x" "D" Option.none]
            [FriendRow.mk "alice" "bob" "accepted" 0] []
            [DeviceRow.mk "123" "alice" "Rex" Option.none] []
            [DeviceShareRow.mk "123" "alice" "carol"] [] []).device_shares,
          ds.device_imei = (DeviceRow.mk "123" "alice" "Rex" Option.none).imei ∧
          ds.shared_with_uuid = y) →
        ((handleDeviceLocationUpdate (fun _ => false)
          [("alice", 0), ("bob", 1), ("carol", 2), ("dave", 3)]
          (DB.mk [UserRow.mk "alice" "a@x" "A" Option.none,
            UserRow.mk "bob" "b@x" "B" Option.none,
            UserRow.mk "carol" "c@x" "C" Option.none,
            UserRow.mk "dave" "d@x" "D" Option.none]
            [FriendRow.mk "alice" "bob" "accepted" 0] []
            [DeviceRow.mk "123" "alice" "Rex" Option.none] []
            [DeviceShareRow.mk "123" "alice" "carol"] [] [])
          [("device_id", PyVal.str "123"), ("latitude", PyVal.num 60)]
          "alice" 5).2.2.filter
          (fun p => p = (y, Msg.deviceLocations [{ v with type := "shared" }]))).length = 1) ∧
      (∀ z, (∀ f ∈ (DB.mk [UserRow.mk "alice" "a@x" "A" Option.none,
            UserRow.mk "bob" "b@x" "B" Option.none,
            UserRow.mk "carol" "c@x" "C" Option.none,
            UserRow.mk "dave" "d@x" "D" Option.none]
            [FriendRow.mk "alice" "bob" "accepted" 0] []
            [DeviceRow.mk "123" "alice" "Rex" Option.none] []
            [DeviceShareRow.mk "123" "alice" "carol"] [] []).friends,
          f.status = "accepted" →
          ¬ ((f.user_uuid = "alice" ∧ f.friend_uuid = z) ∨
            (f.user_uuid = z ∧ f.friend_uuid = "alice"))) →
        (∀ ds ∈ (DB.mk [UserRow.mk "alice" "a@x" "A" Option.none,
            UserRow.mk "bob" "b@x" "B" Option.none,
            UserRow.mk "carol" "c@x" "C" Option.none,
            UserRow.mk "dave" "d@x" "D" Option.none]
            [FriendRow.mk "alice" "bob" "accepted" 0] []
            [DeviceRow.mk "123" "alice" "Rex" Option.none] []
            [DeviceShareRow.mk "123" "alice" "carol"] [] []).device_shares,
          ¬ (ds.device_imei = (DeviceRow.mk "123" "alice" "Rex" Option.none).imei ∧
            ds.shared_with_uuid = z)) →
        ((handleDeviceLocationUpdate (fun _ => false)
          [("alice", 0), ("bob", 1), ("carol", 2), ("dave", 3)]
          (DB.mk [UserRow.mk "alice" "a@x" "A" Option.none,
            UserRow.mk "bob" "b@x" "B" Option.none,
            UserRow.mk "carol" "c@x" "C" Option.none,
            UserRow.mk "dave" "d@x" "D" Option.none]
            [FriendRow.mk "alice" "bob" "accepted" 0] []
            [DeviceRow.mk "123" "alice" "Rex" Option.none] []
            [DeviceShareRow.mk "123" "alice" "carol"] [] [])
          [("device_id", PyVal.str "123"), ("latitude", PyVal.num 60)]
          "alice" 5).2.2.filter (fun p => p.1 = z)).length = 0)) :=
  ⟨by decide, by decide, by decide,
    device_update_audience (fun _ => false)
      [("alice", 0), ("bob", 1), ("carol", 2), ("dave", 3)]
      (DB.mk [UserRow.mk "alice" "a@x" "A" Option.none,
        UserRow.mk "bob" "b@x" "B" Option.none,
        UserRow.mk "carol" "c@x" "C" Option.none,
        UserRow.mk "dave" "d@x" "D" Option.none]
        [FriendRow.mk "alice" "bob" "accepted" 0] []
        [DeviceRow.mk "123" "alice" "Rex" Option.none] []
        [DeviceShareRow.mk "123" "alice" "carol"] [] [])
      [("device_id", PyVal.str "123"), ("latitude", PyVal.num 60)] "alice" 5
      (DeviceRow.mk "123" "alice" "Rex" Option.none)
      (by decide) (by decide) (by decide) (by decide) (by decide)⟩

/-! ## Claim C9 (confirmed) -/

/-- C9: the initial snapshot burst is the fixed sequence friend locations,
then device locations, then groups (a sublist of the three-message
canonical sequence, so the order is fixed); each category's message is
present exactly when its query result is nonempty and carries exactly
that result (an empty category sends no message at all); a device shared
with the viewer but with no recorded location still yields a view with
latitude and longitude None tagged shared, and the device-locations
message is then present and carries it; and the viewer's own location is
excluded from the include_self=false query the snapshot uses (given no
self friends row) while the include_self=true query does include it when
a location row exists. -/
theorem initial_snapshot_shape (db : DB) (u : String) :
    (initialMessages db u).Sublist
      [Msg.userLocations (getFriendLocations db u false),
        Msg.deviceLocations (getDeviceLocations db u),
        Msg.groups (getUserGroupsWs db u)] ∧
    (∀ l, Msg.userLocations l ∈ initialMessages db u ↔
      (l = getFriendLocations db u false ∧ l ≠ [])) ∧
    (∀ l, Msg.deviceLocations l ∈ initialMessages db u ↔
      (l = getDeviceLocations db u ∧ l ≠ [])) ∧
    (∀ l, Msg.groups l ∈ initialMessages db u ↔
      (l = getUserGroupsWs db u ∧ l ≠ [])) ∧
    (∀ d usr ds, d ∈ db.devices → ds ∈ db.device_shares →
      ds.device_imei = d.imei → ds.shared_with_uuid = u →
      usr ∈ db.users → usr.uuid = d.owner_uuid →
      (∀ r ∈ db.device_locations, r.device_id ≠ d.imei) →
      mkDeviceLocView d usr Option.none "shared" ∈ getDeviceLocations db u ∧
      (mkDeviceLocView d usr Option.none "shared").latitude = PyVal.none ∧
      (mkDeviceLocView d usr Option.none "shared").longitude = PyVal.none ∧
      (mkDeviceLocView d usr Option.none "shared").type = "shared" ∧
      Msg.deviceLocations (getDeviceLocations db u) ∈ initialMessages db u) ∧
    ((∀ f ∈ db.friends, ¬ (f.user_uuid = u ∧ f.friend_uuid = u)) →
      ∀ v ∈ getFriendLocations db u false, v.uuid ≠ u) ∧
    (∀ ua ul, ua ∈ db.users → ua.uuid = u → ul ∈ db.user_locations → ul.uuid = u →
      ∃ v ∈ getFriendLocations db u true, v.uuid = u) := by
  have hmemU : ∀ l, Msg.userLocations l ∈ initialMessages db u ↔
      (l = getFriendLocations db u false ∧ l ≠ []) := by
    intro l
    unfold initialMessages
    simp only [List.mem_append, mem_guard]
    constructor
    · rintro ((⟨hne, heq⟩ | ⟨hne, heq⟩) | ⟨hne, heq⟩)
      · have hl : l = getFriendLocations db u false := by injection heq
        exact ⟨hl, hl ▸ hne⟩
      · exact absurd heq (by simp)
      · exact absurd heq (by simp)
    · rintro ⟨rfl, hne⟩
      exact Or.inl (Or.inl ⟨hne, rfl⟩)
  have hmemD : ∀ l, Msg.deviceLocations l ∈ initialMessages db u ↔
      (l = getDeviceLocations db u ∧ l ≠ []) := by
    intro l
    unfold initialMessages
    simp only [List.mem_append, mem_guard]
    constructor
    · rintro ((⟨hne, heq⟩ | ⟨hne, heq⟩) | ⟨hne, heq⟩)
      · exact absurd heq (by simp)
      · have hl : l = getDeviceLocations db u := by injection heq
        exact ⟨hl, hl ▸ hne⟩
      · exact absurd heq (by simp)
    · rintro ⟨rfl, hne⟩
      exact Or.inl (Or.inr ⟨hne, rfl⟩)
  have hmemG : ∀ l, Msg.groups l ∈ initialMessages db u ↔
      (l = getUserGroupsWs db u ∧ l ≠ []) := by
    intro l
    unfold initialMessages
    simp only [List.mem_append, mem_guard]
    constructor
    · rintro ((⟨hne, heq⟩ | ⟨hne, heq⟩) | ⟨hne, heq⟩)
      · exact absurd heq (by simp)
      · exact absurd heq (by simp)
      · have hl : l = getUserGroupsWs db u := by injection heq
        exact ⟨hl, hl ▸ hne⟩
    · rintro ⟨rfl, hne⟩
      exact Or.inr ⟨hne, rfl⟩
  refine ⟨?_, hmemU, hmemD, hmemG, ?_, ?_, ?_⟩
  · unfold initialMessages
    have h1 : (if getFriendLocations db u false ≠ [] then
        [Msg.userLocations (getFriendLocations db u false)] else []).Sublist
        [Msg.userLocations (getFriendLocations db u false)] := by
      by_cases h : getFriendLocations db u false ≠ [] <;> simp [h]
    have h2 : (if getDeviceLocations db u ≠ [] then
        [Msg.deviceLocations (getDeviceLocations db u)] else []).Sublist
        [Msg.deviceLocations (getDeviceLocations db u)] := by
      by_cases h : getDeviceLocations db u ≠ [] <;> simp [h]
    have h3 : (if getUserGroupsWs db u ≠ [] then
        [Msg.groups (getUserGroupsWs db u)] else []).Sublist
        [Msg.groups (getUserGroupsWs db u)] := by
      by_cases h : getUserGroupsWs db u ≠ [] <;> simp [h]
    exact List.Sublist.append (List.Sublist.append h1 h2) h3
  · intro d usr ds hd hds hdsi hdsu husr huo hnoloc
    have hview : mkDeviceLocView d usr Option.none "shared" ∈ getDeviceLocations db u := by
      unfold getDeviceLocations
      apply List.mem_append_right
      apply List.mem_flatMap.mpr
      refine ⟨ds, List.mem_filter.mpr ⟨hds, by simpa using hdsu⟩, ?_⟩
      apply List.mem_flatMap.mpr
      refine ⟨d, List.mem_filter.mpr ⟨hd, by simpa using hdsi.symm⟩, ?_⟩
      apply List.mem_flatMap.mpr
      refine ⟨usr, List.mem_filter.mpr ⟨husr, by simpa using huo⟩, ?_⟩
      apply List.mem_map.mpr
      refine ⟨Option.none, ?_, rfl⟩
      rw [leftJoinLocs_nil db.device_locations d.imei hnoloc]
      exact List.mem_singleton.mpr rfl
    refine ⟨hview, rfl, rfl, rfl, ?_⟩
    exact (hmemD (getDeviceLocations db u)).mpr
      ⟨rfl, List.ne_nil_of_mem hview⟩
  · intro hself v hv hvu
    obtain ⟨usr, husr, ul, hul, hulu, hcond, hveq⟩ :=
      (mem_getFriendLocations db u false v).mp hv
    have husru : usr.uuid = u := by
      rw [hveq] at hvu
      simpa using hvu
    rcases hcond with hacc | hfalse
    · rw [husru] at hacc
      unfold acceptedFriendIds at hacc
      rcases List.mem_append.mp (List.mem_dedup.mp hacc) with hm | hm
      · obtain ⟨f, hf, hfu⟩ := List.mem_map.mp hm
        obtain ⟨hf2, hfp⟩ := List.mem_filter.mp hf
        have hfp2 : f.user_uuid = u ∧ f.status = "accepted" := by simpa using hfp
        exact hself f hf2 ⟨hfp2.1, hfu⟩
      · obtain ⟨f, hf, hfu⟩ := List.mem_map.mp hm
        obtain ⟨hf2, hfp⟩ := List.mem_filter.mp hf
        have hfp2 : f.friend_uuid = u ∧ f.status = "accepted" := by simpa using hfp
        exact hself f hf2 ⟨hfu, hfp2.1⟩
    · exact absurd hfalse.1 (by simp)
  · intro ua ul hua huau hul hulu
    refine ⟨UserLocView.mk ua.uuid ua.email ua.nickname ul.latitude ul.longitude
      ul.altitude ul.speed ul.battery ul.accuracy ul.timestamp, ?_, by simpa using huau⟩
    apply (mem_getFriendLocations db u true _).mpr
    refine ⟨ua, hua, ul, hul, by rw [hulu, huau], Or.inr ⟨rfl, huau⟩, rfl⟩

/-- C9 witness: device 999888777666555 owned by alice shared with carol;
carol's snapshot before any location exists is exactly one
device-locations message whose view has null coordinates and tag shared. -/
theorem initial_snapshot_shape_witness :
    ((DeviceRow.mk "999888777666555" "alice" "Rex" Option.none) ∈
      (DB.mk [UserRow.mk "alice" "a@x" "A" Option.none,
        UserRow.mk "carol" "c@x" "C" Option.none] [] []
        [DeviceRow.mk "999888777666555" "alice" "Rex" Option.none] []
        [DeviceShareRow.mk "999888777666555" "alice" "carol"] [] []).devices ∧
      (DeviceShareRow.mk "999888777666555" "alice" "carol") ∈
      (DB.mk [UserRow.mk "alice" "a@x" "A" Option.none,
        UserRow.mk "carol" "c@x" "C" Option.none] [] []
        [DeviceRow.mk "999888777666555" "alice" "Rex" Option.none] []
        [DeviceShareRow.mk "999888777666555" "alice" "carol"] [] []).device_shares) ∧
    initialMessages
      (DB.mk [UserRow.mk "alice" "a@x" "A" Option.none,
        UserRow.mk "carol" "c@x" "C" Option.none] [] []
        [DeviceRow.mk "999888777666555" "alice" "Rex" Option.none] []
        [DeviceShareRow.mk "999888777666555" "alice" "carol"] [] []) "carol" =
      [Msg.deviceLocations [mkDeviceLocView
        (DeviceRow.mk "999888777666555" "alice" "Rex" Option.none)
        (UserRow.mk "alice" "a@x" "A" Option.none) Option.none "shared"]] ∧
    (mkDeviceLocView (DeviceRow.mk "999888777666555" "alice" "Rex" Option.none)
        (UserRow.mk "alice" "a@x" "A" Option.none) Option.none "shared" ∈
      getDeviceLocations
        (DB.mk [UserRow.mk "alice" "a@x" "A" Option.none,
          UserRow.mk "carol" "c@x" "C" Option.none] [] []
          [DeviceRow.mk "999888777666555" "alice" "Rex" Option.none] []
          [DeviceShareRow.mk "999888777666555" "alice" "carol"] [] []) "carol" ∧
      (mkDeviceLocView (DeviceRow.mk "999888777666555" "alice" "Rex" Option.none)
        (UserRow.mk "alice" "a@x" "A" Option.none) Option.none "shared").latitude =
        PyVal.none ∧
      (mkDeviceLocView (DeviceRow.mk "999888777666555" "alice" "Rex" Option.none)
        (UserRow.mk "alice" "a@x" "A" Option.none) Option.none "shared").longitude =
        PyVal.none ∧
      (mkDeviceLocView (DeviceRow.mk "999888777666555" "alice" "Rex" Option.none)
        (UserRow.mk "alice" "a@x" "A" Option.none) Option.none "shared").type =
        "shared" ∧
      Msg.deviceLocations (getDeviceLocations
        (DB.mk [UserRow.mk "alice" "a@x" "A" Option.none,
          UserRow.mk "carol" "c@x" "C" Option.none] [] []
          [DeviceRow.mk "999888777666555" "alice" "Rex" Option.none] []
          [DeviceShareRow.mk "999888777666555" "alice" "carol"] [] []) "carol") ∈
      initialMessages
        (DB.mk [UserRow.mk "alice" "a@x" "A" Option.none,
          UserRow.mk "carol" "c@x" "C" Option.none] [] []
          [DeviceRow.mk "999888777666555" "alice" "Rex" Option.none] []
          [DeviceShareRow.mk "999888777666555" "alice" "carol"] [] []) "carol") ∧
    (∀ v ∈ getFriendLocations
        (DB.mk [UserRow.mk "alice" "a@x" "A" Option.none,
          UserRow.mk "carol" "c@x" "C" Option.none] [] []
          [DeviceRow.mk "999888777666555" "alice" "Rex" Option.none] []
          [DeviceShareRow.mk "999888777666555" "alice" "carol"] [] []) "carol" false,
      v.uuid ≠ "carol") :=
  ⟨⟨by decide, by decide⟩, by decide,
    (initial_snapshot_shape
      (DB.mk [UserRow.mk "alice" "a@x" "A" Option.none,
        UserRow.mk "carol" "c@x" "C" Option.none] [] []
        [DeviceRow.mk "999888777666555" "alice" "Rex" Option.none] []
        [DeviceShareRow.mk "999888777666555" "alice" "carol"] [] []) "carol").2.2.2.2.1
      (DeviceRow.mk "999888777666555" "alice" "Rex" Option.none)
      (UserRow.mk "alice" "a@x" "A" Option.none)
      (DeviceShareRow.mk "999888777666555" "alice" "carol")
      (by decide) (by decide) (by decide) (by decide) (by decide) (by decide) (by decide),
    (initial_snapshot_shape
      (DB.mk [UserRow.mk "alice" "a@x" "A" Option.none,
        UserRow.mk "carol" "c@x" "C" Option.none] [] []
        [DeviceRow.mk "999888777666555" "alice" "Rex" Option.none] []
        [DeviceShareRow.mk "999888777666555" "alice" "carol"] [] []) "carol").2.2.2.2.2.1
      (by decide)⟩

/-! ## Claim C4 (corrected) -/

/-- C4 counterexample: the claim asserts that a malformed-JSON inbound
frame leaves the connection open with the read loop continuing.  In the
code json.loads runs inside the endpoint loop but outside the per-message
try/except of handle_websocket_message, so the raised decode error hits
the endpoint's outer except handler, which logs, deregisters the user and
leaves the loop: at a concrete state the session ends (flag false) and
the registry entry is removed. -/
theorem malformed_json_terminates_session :
    wsLoopStep (fun _ => false) [("alice", 0)] (DB.mk [] [] [] [] [] [] [] [])
      "alice" 0 (Inbound.malformed "not json") =
      (DB.mk [] [] [] [] [] [] [] [], [], [], false) := by
  decide

/-- C4 amended: an inbound message with an unknown type is logged and
dropped with the connection staying open and the loop continuing, and an
error inside a message handler is likewise absorbed; but a frame that
fails JSON decoding raises outside the per-message guard, so it is logged,
the user is deregistered and the read loop terminates. -/
theorem read_loop_error_isolation (fails : Nat → Bool) (conns : Conns)
    (db : DB) (u : String) (now : Nat) :
    (∀ m : TopMsg,
      (match List.lookup "type" m with
        | some v => v
        | Option.none => TopVal.scalar PyVal.none) ≠ TopVal.scalar (PyVal.str "user_location") →
      (match List.lookup "type" m with
        | some v => v
        | Option.none => TopVal.scalar PyVal.none) ≠ TopVal.scalar (PyVal.str "device_location") →
      wsLoopStep fails conns db u now (Inbound.message m) = (db, conns, [], true)) ∧
    (∀ raw, wsLoopStep fails conns db u now (Inbound.malformed raw) =
      (db, disconnect conns u, [], false)) := by
  constructor
  · intro m h1 h2
    simp only [wsLoopStep, handleWebsocketMessage]
    rw [if_neg h1, if_neg h2]
  · intro raw
    rfl

/-- C4 witness: a ping-typed message is dropped with the loop continuing;
a malformed frame ends the session. -/
theorem read_loop_error_isolation_witness :
    ((match List.lookup "type"
        ([("type", TopVal.scalar (PyVal.str "ping"))] : TopMsg) with
      | some v => v
      | Option.none => TopVal.scalar PyVal.none) ≠
        TopVal.scalar (PyVal.str "user_location") ∧
      wsLoopStep (fun _ => false) [("alice", 0)] (DB.mk [] [] [] [] [] [] [] [])
        "alice" 0 (Inbound.message [("type", TopVal.scalar (PyVal.str "ping"))]) =
        (DB.mk [] [] [] [] [] [] [] [], [("alice", 0)], [], true)) ∧
    wsLoopStep (fun _ => false) [("alice", 0)] (DB.mk [] [] [] [] [] [] [] [])
      "alice" 0 (Inbound.malformed "oops") =
      (DB.mk [] [] [] [] [] [] [] [], disconnect [("alice", 0)] "alice", [], false) :=
  ⟨⟨by decide,
    (read_loop_error_isolation (fun _ => false) [("alice", 0)]
      (DB.mk [] [] [] [] [] [] [] []) "alice" 0).1
      [("type", TopVal.scalar (PyVal.str "ping"))] (by decide) (by decide)⟩,
    (read_loop_error_isolation (fun _ => false) [("alice", 0)]
      (DB.mk [] [] [] [] [] [] [] []) "alice" 0).2 "oops"⟩

/-! ## Claim C5 (confirmed) -/

set_option maxHeartbeats 2000000 in
/-- C5: starting with no buffer for device d, four single-field fragments
(latitude, longitude, battery, bark) arriving in any order produce exactly
one emission, the moment all four fields have been seen; the buffer is
retained after emission, so a fifth fragment carrying any single field
triggers a second emission whose dog payload merges the new value with
the latest known values of the untouched fields. -/
theorem telemetry_assembler_emissions (d : String) (a b : ℚ) (c e : ℤ)
    (ta tb tc te : Nat) (bufs : Buffers) (fs : List Frag)
    (hbufs : List.lookup d bufs = Option.none)
    (hperm : fs.Perm [Frag.mk d "Position/latitude" a ta,
      Frag.mk d "Position/longitude" b tb,
      Frag.mk d "battery" (c : ℚ) tc,
      Frag.mk d "bark" (e : ℚ) te]) :
    (runFragments bufs fs).2.length = 1 ∧
    (∀ (w : ℚ) (t5 : Nat),
      (runFragments bufs (fs ++ [Frag.mk d "Position/latitude" w t5])).2 =
        (runFragments bufs fs).2 ++
        [Emission.mk (DevBuf.mk d (some w) (some b) (some c) (some e) t5) t5]) ∧
    (∀ (w : ℚ) (t5 : Nat),
      (runFragments bufs (fs ++ [Frag.mk d "Position/longitude" w t5])).2 =
        (runFragments bufs fs).2 ++
        [Emission.mk (DevBuf.mk d (some a) (some w) (some c) (some e) t5) t5]) ∧
    (∀ (w : ℤ) (t5 : Nat),
      (runFragments bufs (fs ++ [Frag.mk d "battery" (w : ℚ) t5])).2 =
        (runFragments bufs fs).2 ++
        [Emission.mk (DevBuf.mk d (some a) (some b) (some w) (some e) t5) t5]) ∧
    (∀ (w : ℤ) (t5 : Nat),
      (runFragments bufs (fs ++ [Frag.mk d "bark" (w : ℚ) t5])).2 =
        (runFragments bufs fs).2 ++
        [Emission.mk (DevBuf.mk d (some a) (some b) (some c) (some w) t5) t5]) := by
  have h24 := List.mem_permutations'.mpr hperm
  simp [List.permutations', List.permutations'Aux] at h24
  rcases h24 with h|h|h|h|h|h|h|h|h|h|h|h|h|h|h|h|h|h|h|h|h|h|h|h <;>
    subst h <;>
    refine ⟨?_, fun w t5 => ?_, fun w t5 => ?_, fun w t5 => ?_, fun w t5 => ?_⟩ <;>
    simp [runFragments, onFragment, applyField, parseIntPy, bufComplete, setBuf,
      newBuf, hbufs, List.lookup_cons]

/-- C5 witness: four fragments for dev1 in the order bark, latitude,
battery, longitude produce exactly one emission; a fifth battery fragment
produces a second emission merging the new battery value with the
retained latitude, longitude and bark. -/
theorem telemetry_assembler_emissions_witness :
    List.lookup "dev1" ([] : Buffers) = Option.none ∧
    ([Frag.mk "dev1" "bark" ((4 : ℤ) : ℚ) 0, Frag.mk "dev1" "Position/latitude" 1 1,
      Frag.mk "dev1" "battery" ((3 : ℤ) : ℚ) 2,
      Frag.mk "dev1" "Position/longitude" 2 3] : List Frag).Perm
      [Frag.mk "dev1" "Position/latitude" 1 1, Frag.mk "dev1" "Position/longitude" 2 3,
        Frag.mk "dev1" "battery" ((3 : ℤ) : ℚ) 2, Frag.mk "dev1" "bark" ((4 : ℤ) : ℚ) 0] ∧
    (runFragments [] [Frag.mk "dev1" "bark" ((4 : ℤ) : ℚ) 0,
      Frag.mk "dev1" "Position/latitude" 1 1, Frag.mk "dev1" "battery" ((3 : ℤ) : ℚ) 2,
      Frag.mk "dev1" "Position/longitude" 2 3]).2.length = 1 ∧
    (runFragments [] ([Frag.mk "dev1" "bark" ((4 : ℤ) : ℚ) 0,
      Frag.mk "dev1" "Position/latitude" 1 1, Frag.mk "dev1" "battery" ((3 : ℤ) : ℚ) 2,
      Frag.mk "dev1" "Position/longitude" 2 3] ++
      [Frag.mk "dev1" "battery" ((9 : ℤ) : ℚ) 7])).2 =
      (runFragments [] [Frag.mk "dev1" "bark" ((4 : ℤ) : ℚ) 0,
        Frag.mk "dev1" "Position/latitude" 1 1, Frag.mk "dev1" "battery" ((3 : ℤ) : ℚ) 2,
        Frag.mk "dev1" "Position/longitude" 2 3]).2 ++
      [Emission.mk (DevBuf.mk "dev1" (some 1) (some 2) (some 9) (some 4) 7) 7] :=
  ⟨by decide, by decide,
    (telemetry_assembler_emissions "dev1" 1 2 3 4 1 3 2 0 []
      [Frag.mk "dev1" "bark" ((4 : ℤ) : ℚ) 0, Frag.mk "dev1" "Position/latitude" 1 1,
        Frag.mk "dev1" "battery" ((3 : ℤ) : ℚ) 2,
        Frag.mk "dev1" "Position/longitude" 2 3]
      (by decide) (by decide)).1,
    (telemetry_assembler_emissions "dev1" 1 2 3 4 1 3 2 0 []
      [Frag.mk "dev1" "bark" ((4 : ℤ) : ℚ) 0, Frag.mk "dev1" "Position/latitude" 1 1,
        Frag.mk "dev1" "battery" ((3 : ℤ) : ℚ) 2,
        Frag.mk "dev1" "Position/longitude" 2 3]
      (by decide) (by decide)).2.2.2.1 9 7⟩

end DogTracker
